import Mathlib

/-!
Verification of the request-signing and chunked-upload core of the
WeiboDR-Uploader repository (src-tauri).

Modelling conventions:
* Rust strings and byte buffers are modelled as `List Nat` (`RStr`), read as
  UTF-8 bytes.  The helper `strB` injects Lean string literals; for ASCII
  literals it produces exactly the UTF-8 bytes.  The handful of Chinese
  error-message literals are injected codepoint-wise; they are opaque
  payloads whose exact bytes no claim depends on.
* `u8`/`u32` arithmetic is `Nat` with explicit reduction `% 256` / `% 2^32`.
* Fallible Rust code returns `Except AppError`; a Rust panic is modelled by
  the `PanicOr` type.
* Network effects are modelled by explicit response/outcome parameters; the
  functions return the issued call trace together with the result.
-/

set_option maxRecDepth 10000

/-- Rust strings / byte buffers, as their UTF-8 byte sequences. -/
abbrev RStr := List Nat

/-- Inject a Lean string literal (ASCII-exact; see module comment). -/
def strB (s : String) : RStr := s.data.map Char.toNat

/-- Reduce to a 32-bit word (`u32` wrap-around). -/
def w32 (n : Nat) : Nat := n % 4294967296

/-- 32-bit rotate right. -/
def rotr32 (k n : Nat) : Nat := w32 (Nat.lor (n >>> k) (n <<< (32 - k)))

/-- 32-bit rotate left. -/
def rotl32 (k n : Nat) : Nat := w32 (Nat.lor (n <<< k) (n >>> (32 - k)))

/-- `k` bytes of `n`, big-endian. -/
def beBytes : Nat → Nat → List Nat
  | 0, _ => []
  | k + 1, n => (n >>> (8 * k)) % 256 :: beBytes k n

/-- Group bytes into big-endian 32-bit words. -/
def toWordsBE : List Nat → List Nat
  | a :: b :: c :: d :: rest => (((a * 256 + b) * 256 + c) * 256 + d) :: toWordsBE rest
  | _ => []

/-- Merkle–Damgård padding shared by SHA-1 and SHA-256. -/
def mdPad (msg : List Nat) : List Nat :=
  let len := msg.length
  let zeros := (64 + 55 - (len % 64)) % 64
  msg ++ 128 :: List.replicate zeros 0 ++ beBytes 8 (8 * len)

def chunks64Aux : Nat → List Nat → List (List Nat)
  | 0, _ => []
  | _, [] => []
  | fuel + 1, l => l.take 64 :: chunks64Aux fuel (l.drop 64)

/-- Split into 64-byte blocks. -/
def chunks64 (l : List Nat) : List (List Nat) := chunks64Aux l.length l

/-- SHA-256 round constants. -/
def sha256K : List Nat :=
  [1116352408, 1899447441, 3049323471, 3921009573, 961987163, 1508970993,
   2453635748, 2870763221, 3624381080, 310598401, 607225278, 1426881987,
   1925078388, 2162078206, 2614888103, 3248222580, 3835390401, 4022224774,
   264347078, 604807628, 770255983, 1249150122, 1555081692, 1996064986,
   2554220882, 2821834349, 2952996808, 3210313671, 3336571891, 3584528711,
   113926993, 338241895, 666307205, 773529912, 1294757372, 1396182291,
   1695183700, 1986661051, 2177026350, 2456956037, 2730485921, 2820302411,
   3259730800, 3345764771, 3516065817, 3600352804, 4094571909, 275423344,
   430227734, 506948616, 659060556, 883997877, 958139571, 1322822218,
   1537002063, 1747873779, 1955562222, 2024104815, 2227730452, 2361852424,
   2428436474, 2756734187, 3204031479, 3329325298]

/-- SHA-256 initial hash state. -/
def sha256Init : List Nat :=
  [1779033703, 3144134277, 1013904242, 2773480762,
   1359893119, 2600822924, 528734635, 1541459225]

/-- Extend the 16-word message schedule by `t` further words. -/
def sha256Ext (ws : List Nat) : Nat → List Nat
  | 0 => ws
  | t + 1 =>
    let prev := sha256Ext ws t
    let n := prev.length
    let w15 := prev.getD (n - 15) 0
    let w2 := prev.getD (n - 2) 0
    let s0 := Nat.xor (Nat.xor (rotr32 7 w15) (rotr32 18 w15)) (w15 >>> 3)
    let s1 := Nat.xor (Nat.xor (rotr32 17 w2) (rotr32 19 w2)) (w2 >>> 10)
    prev ++ [w32 (prev.getD (n - 16) 0 + s0 + prev.getD (n - 7) 0 + s1)]

/-- Eight-word working state of the SHA-256 compression function. -/
structure H8 where
  a : Nat
  b : Nat
  c : Nat
  d : Nat
  e : Nat
  f : Nat
  g : Nat
  h : Nat

def sha256Round (st : H8) (w k : Nat) : H8 :=
  let s1 := Nat.xor (Nat.xor (rotr32 6 st.e) (rotr32 11 st.e)) (rotr32 25 st.e)
  let ch := Nat.xor (Nat.land st.e st.f) (Nat.land (Nat.xor st.e 4294967295) st.g)
  let t1 := w32 (st.h + s1 + ch + k + w)
  let s0 := Nat.xor (Nat.xor (rotr32 2 st.a) (rotr32 13 st.a)) (rotr32 22 st.a)
  let mj := Nat.xor (Nat.xor (Nat.land st.a st.b) (Nat.land st.a st.c)) (Nat.land st.b st.c)
  let t2 := w32 (s0 + mj)
  ⟨w32 (t1 + t2), st.a, st.b, st.c, w32 (st.d + t1), st.e, st.f, st.g⟩

def sha256Block (hs : List Nat) (block : List Nat) : List Nat :=
  let w := sha256Ext (toWordsBE block) 48
  let st0 : H8 := ⟨hs.getD 0 0, hs.getD 1 0, hs.getD 2 0, hs.getD 3 0,
                   hs.getD 4 0, hs.getD 5 0, hs.getD 6 0, hs.getD 7 0⟩
  let sf := (w.zip sha256K).foldl (fun st wk => sha256Round st wk.1 wk.2) st0
  [w32 (hs.getD 0 0 + sf.a), w32 (hs.getD 1 0 + sf.b), w32 (hs.getD 2 0 + sf.c),
   w32 (hs.getD 3 0 + sf.d), w32 (hs.getD 4 0 + sf.e), w32 (hs.getD 5 0 + sf.f),
   w32 (hs.getD 6 0 + sf.g), w32 (hs.getD 7 0 + sf.h)]

/-- SHA-256 digest (32 bytes) of a byte sequence. -/
def sha256 (msg : List Nat) : List Nat :=
  (((chunks64 (mdPad msg)).foldl sha256Block sha256Init).map (beBytes 4)).flatten

/-- SHA-1 initial hash state. -/
def sha1Init : List Nat := [1732584193, 4023233417, 2562383102, 271733878, 3285377520]

/-- Extend the 16-word SHA-1 schedule by `t` further words. -/
def sha1Ext (ws : List Nat) : Nat → List Nat
  | 0 => ws
  | t + 1 =>
    let prev := sha1Ext ws t
    let n := prev.length
    let x := Nat.xor (Nat.xor (prev.getD (n - 3) 0) (prev.getD (n - 8) 0))
      (Nat.xor (prev.getD (n - 14) 0) (prev.getD (n - 16) 0))
    prev ++ [rotl32 1 x]

/-- Five-word working state of the SHA-1 compression function. -/
structure H5 where
  a : Nat
  b : Nat
  c : Nat
  d : Nat
  e : Nat

def sha1Round (st : H5) (iw : Nat × Nat) : H5 :=
  let i := iw.1
  let w := iw.2
  let f :=
    if i < 20 then Nat.lor (Nat.land st.b st.c) (Nat.land (Nat.xor st.b 4294967295) st.d)
    else if i < 40 then Nat.xor (Nat.xor st.b st.c) st.d
    else if i < 60 then Nat.lor (Nat.lor (Nat.land st.b st.c) (Nat.land st.b st.d)) (Nat.land st.c st.d)
    else Nat.xor (Nat.xor st.b st.c) st.d
  let k :=
    if i < 20 then 1518500249
    else if i < 40 then 1859775393
    else if i < 60 then 2400959708
    else 3395469782
  ⟨w32 (rotl32 5 st.a + f + st.e + k + w), st.a, rotl32 30 st.b, st.c, st.d⟩

def sha1Block (hs : List Nat) (block : List Nat) : List Nat :=
  let w := sha1Ext (toWordsBE block) 64
  let st0 : H5 := ⟨hs.getD 0 0, hs.getD 1 0, hs.getD 2 0, hs.getD 3 0, hs.getD 4 0⟩
  let sf := ((List.range 80).zip w).foldl sha1Round st0
  [w32 (hs.getD 0 0 + sf.a), w32 (hs.getD 1 0 + sf.b), w32 (hs.getD 2 0 + sf.c),
   w32 (hs.getD 3 0 + sf.d), w32 (hs.getD 4 0 + sf.e)]

/-- SHA-1 digest (20 bytes) of a byte sequence. -/
def sha1 (msg : List Nat) : List Nat :=
  (((chunks64 (mdPad msg)).foldl sha1Block sha1Init).map (beBytes 4)).flatten

/-- Lowercase hex digit byte of a nibble (`hex::encode` is lowercase). -/
def hexDigitLower (n : Nat) : Nat := if n < 10 then 48 + n else 87 + n

/-- Uppercase hex digit byte of a nibble. -/
def hexDigitUpper (n : Nat) : Nat := if n < 10 then 48 + n else 55 + n

/-- `hex::encode`: lowercase hex of a byte sequence. -/
def hexEncode (l : List Nat) : RStr :=
  (l.map (fun b => [hexDigitLower (b / 16), hexDigitLower (b % 16)])).flatten

/-- HMAC-SHA256 (RFC 2104) of a message under a key of any length. -/
def hmacSha256Bytes (key msg : List Nat) : List Nat :=
  let k0 := if 64 < key.length then sha256 key else key
  let kp := k0 ++ List.replicate (64 - k0.length) 0
  sha256 ((kp.map (Nat.xor 92)) ++ sha256 ((kp.map (Nat.xor 54)) ++ msg))

/-- Rust byte-slice / `str` comparison `a.cmp(b)` as a Boolean `a ≤ b`
(lexicographic on bytes, shorter prefix first). -/
def bytesLe : RStr → RStr → Bool
  | [], _ => true
  | _ :: _, [] => false
  | a :: x, b :: y => if a < b then true else if b < a then false else bytesLe x y

/-- The key order used by the canonical-request sorts. -/
def pairKeyLe (p q : RStr × RStr) : Prop := bytesLe p.1 q.1 = true

instance : DecidableRel pairKeyLe := fun _ _ => inferInstanceAs (Decidable (_ = true))

/-- The strict companion of `pairKeyLe` (used only in proofs). -/
def pairKeyLt (p q : RStr × RStr) : Prop := pairKeyLe p q ∧ p.1 ≠ q.1

/-- Rust `sort_by(|a, b| a.0.cmp(b.0))`.  Rust uses a stable merge sort;
insertion sort is also stable, and two stable sorts under the same
comparator produce the same output on every input. -/
def sortByKey (l : List (RStr × RStr)) : List (RStr × RStr) :=
  List.insertionSort pairKeyLe l

/-- The newline byte. -/
def NL : Nat := 10

/-- `join` of string pieces with a separator. -/
def joinB (sep : RStr) : List RStr → RStr
  | [] => []
  | [x] => x
  | x :: y :: rest => x ++ sep ++ joinB sep (y :: rest)

/-- One byte under `urlencoding::encode`: RFC 3986 unreserved bytes
(`A-Z a-z 0-9 - . _ ~`) kept, every other byte as `%XX` (uppercase hex). -/
def urlencodeByte (b : Nat) : RStr :=
  if (65 ≤ b ∧ b ≤ 90) ∨ (97 ≤ b ∧ b ≤ 122) ∨ (48 ≤ b ∧ b ≤ 57) ∨
      b = 45 ∨ b = 46 ∨ b = 95 ∨ b = 126 then [b]
  else [37, hexDigitUpper (b / 16), hexDigitUpper (b % 16)]

/-- `urlencoding::encode` over the bytes of a string. -/
def urlencode (s : RStr) : RStr := (s.map urlencodeByte).flatten

/-- ASCII lowercase of one byte. -/
def toLowerByte (b : Nat) : Nat := if 65 ≤ b ∧ b ≤ 90 then b + 32 else b

/-- Rust `str::to_lowercase`, on the ASCII range (every header name in the
signing paths is ASCII). -/
def toLowerBytes (s : RStr) : RStr := s.map toLowerByte

/-- `AppError` (error.rs:13–57). -/
inductive AppError where
  | Network (message : RStr)
  | Auth (message : RStr)
  | FileIo (message : RStr)
  | Upload (service : RStr) (code : Option Int) (message : RStr)
  | Config (message : RStr)
  | Clipboard (message : RStr)
  | External (message : RStr)
  | Validation (message : RStr)
  | WebDAV (message : RStr)
  | Storage (message : RStr)
deriving DecidableEq

/-- `AppError::upload` (error.rs:157–163): code is `None`. -/
def AppError.upload (service message : RStr) : AppError :=
  AppError.Upload service none message

/-- `AppError::upload_with_code` (error.rs:166–176): code is `Some code`. -/
def AppError.upload_with_code (service : RStr) (code : Int) (message : RStr) : AppError :=
  AppError.Upload service (some code) message

/-- `crypto_common::InvalidLength`, the error type of `Mac::new_from_slice`. -/
inductive InvalidLength where
  | mk
deriving DecidableEq

/-- `Hmac::<Sha256>::new_from_slice`: HMAC accepts keys of any length, so
construction succeeds for every key.  The initialised MAC is modelled by its
key bytes. -/
def hmacNewFromSlice (key : RStr) : Except InvalidLength RStr := .ok key

/-- Result of Rust code that may panic. -/
inductive PanicOr (α : Type) where
  | value (a : α)
  | panicked (msg : RStr)
deriving DecidableEq

/-- Rust `Result::expect`: unwraps, panicking with `msg` on `Err`. -/
def rustExpect {ε α : Type} (msg : RStr) : Except ε α → PanicOr α
  | .ok a => .value a
  | .error _ => .panicked msg

/-- `TosSigner::hmac_sha256` (nami.rs:97–102): a construction failure is
mapped to a typed `External` error by `into_external_err_with`. -/
def TosSigner.hmac_sha256 (key data : RStr) : Except AppError RStr :=
  match hmacNewFromSlice key with
  | .error _ => .error (.External (strB "HMAC 初始化失败: Invalid Length"))
  | .ok k => .ok (hmacSha256Bytes k data)

/-- `hmac_sha256` (main.rs:1101–1105), factored through the constructor
result so that the `expect` branch is visible to theorems. -/
def main_hmac_sha256_ctor (ctor : Except InvalidLength RStr) (data : RStr) : PanicOr RStr :=
  match rustExpect (strB "HMAC can take key of any size") ctor with
  | .panicked m => .panicked m
  | .value k => .value (hmacSha256Bytes k data)

/-- `hmac_sha256` (main.rs:1101–1105). -/
def main_hmac_sha256 (key data : RStr) : PanicOr RStr :=
  main_hmac_sha256_ctor (hmacNewFromSlice key) data

/-- `TosSigner` (nami.rs:76–80). -/
structure TosSigner where
  access_key : RStr
  secret_key : RStr
  session_token : RStr

/-- nami.rs:20. -/
def TOS_HOST : RStr := strB "n-so.tos-cn-shanghai.volces.com"

/-- nami.rs:21. -/
def TOS_REGION : RStr := strB "tos-cn-shanghai"

/-- nami.rs:22. -/
def TOS_SERVICE : RStr := strB "tos"

/-- nami.rs:23. -/
def CDN_BASE : RStr := strB "https://bfns.zhaomi.cn"

/-- `TosSigner::get_signing_key` (nami.rs:105–110): TOS V4 uses the raw
secret key, no prefix. -/
def TosSigner.get_signing_key (s : TosSigner) (date : RStr) : Except AppError RStr := do
  let k_date ← TosSigner.hmac_sha256 s.secret_key date
  let k_region ← TosSigner.hmac_sha256 k_date TOS_REGION
  let k_service ← TosSigner.hmac_sha256 k_region TOS_SERVICE
  TosSigner.hmac_sha256 k_service (strB "request")

/-- `TosSigner::build_canonical_request` (nami.rs:157–194).  The Rust method
takes `&self` but never uses it, so `self` is omitted. -/
def build_canonical_request (method uri : RStr) (query_params : List (RStr × RStr))
    (headers : List (RStr × RStr)) : RStr :=
  let canonical_uri := if uri = [] then strB "/" else uri
  let sorted_params := sortByKey query_params
  let canonical_query_string :=
    joinB (strB "&") (sorted_params.map (fun p => urlencode p.1 ++ strB "=" ++ urlencode p.2))
  let sorted_headers := sortByKey (headers.map (fun p => (toLowerBytes p.1, p.2)))
  let canonical_headers := joinB [NL] (sorted_headers.map (fun p => p.1 ++ strB ":" ++ p.2))
  let signed_headers := joinB (strB ";") (sorted_headers.map Prod.fst)
  method ++ [NL] ++ canonical_uri ++ [NL] ++ canonical_query_string ++ [NL] ++
    canonical_headers ++ [NL, NL] ++ signed_headers ++ [NL] ++ strB "UNSIGNED-PAYLOAD"

/-- `TosSigner::build_string_to_sign` (nami.rs:197–208); `self` unused. -/
def build_string_to_sign (timestamp scope canonical_request : RStr) : RStr :=
  let hashed_request := hexEncode (sha256 canonical_request)
  strB "TOS4-HMAC-SHA256" ++ [NL] ++ timestamp ++ [NL] ++ scope ++ [NL] ++ hashed_request

/-- A UTC wall-clock instant, as the fields chrono formatting reads. -/
structure UtcTime where
  year : Nat
  month : Nat
  day : Nat
  hour : Nat
  minute : Nat
  second : Nat

/-- Ranges chrono guarantees for a real timestamp (month/day/etc. are
two-digit; years stay four-digit until the year 10000). -/
def UtcTime.Valid (t : UtcTime) : Prop :=
  t.year < 10000 ∧ t.month < 100 ∧ t.day < 100 ∧
  t.hour < 100 ∧ t.minute < 100 ∧ t.second < 100

instance (t : UtcTime) : Decidable t.Valid :=
  inferInstanceAs (Decidable (_ ∧ _ ∧ _ ∧ _ ∧ _ ∧ _))

/-- Decimal digits of a natural number (fuelled structural recursion). -/
def decDigitsAux : Nat → Nat → RStr
  | 0, _ => []
  | fuel + 1, n => if n < 10 then [48 + n] else decDigitsAux fuel (n / 10) ++ [48 + n % 10]

/-- Decimal representation of a natural number. -/
def decDigits (n : Nat) : RStr := decDigitsAux (n + 1) n

/-- Left-pad with `0` bytes to width `w` (chrono zero-padded fields). -/
def padZeroLeft (w : Nat) (s : RStr) : RStr := List.replicate (w - s.length) 48 ++ s

/-- chrono `format("%Y%m%d")`. -/
def formatDate (t : UtcTime) : RStr :=
  padZeroLeft 4 (decDigits t.year) ++ padZeroLeft 2 (decDigits t.month) ++
    padZeroLeft 2 (decDigits t.day)

/-- chrono `format("%Y%m%dT%H%M%SZ")` (`TosSigner::get_timestamp`,
nami.rs:92–94, and main.rs:1031). -/
def formatBasicTs (t : UtcTime) : RStr :=
  formatDate t ++ strB "T" ++ padZeroLeft 2 (decDigits t.hour) ++
    padZeroLeft 2 (decDigits t.minute) ++ padZeroLeft 2 (decDigits t.second) ++ strB "Z"

/-- `TosSigner::sign` (nami.rs:113–154); the single `Utc::now()` call of the
invocation is passed in as `now`. -/
def TosSigner.sign (s : TosSigner) (now : UtcTime) (method uri : RStr)
    (query_params : List (RStr × RStr)) : Except AppError (List (RStr × RStr)) := do
  let timestamp := formatBasicTs now
  let date := timestamp.take 8
  let sign_headers : List (RStr × RStr) :=
    [(strB "host", TOS_HOST),
     (strB "x-tos-content-sha256", strB "UNSIGNED-PAYLOAD"),
     (strB "x-tos-date", timestamp),
     (strB "x-tos-security-token", s.session_token)]
  let canonical_request := build_canonical_request method uri query_params sign_headers
  let scope := date ++ strB "/" ++ TOS_REGION ++ strB "/" ++ TOS_SERVICE ++ strB "/request"
  let string_to_sign := build_string_to_sign timestamp scope canonical_request
  let signing_key ← s.get_signing_key date
  let sigBytes ← TosSigner.hmac_sha256 signing_key string_to_sign
  let signature := hexEncode sigBytes
  let signed_headers_str := joinB (strB ";") (sign_headers.map Prod.fst)
  let authorization := strB "TOS4-HMAC-SHA256 Credential=" ++ s.access_key ++ strB "/" ++
    scope ++ strB ", SignedHeaders=" ++ signed_headers_str ++ strB ", Signature=" ++ signature
  .ok (sign_headers ++ [(strB "authorization", authorization)])

/-- Signing-key chain of `test_r2_connection` (main.rs:1057–1060); the same
four lines appear in `delete_r2_object` (main.rs:1427–1430).  Region and
service are the literals `"auto"` and `"s3"`; the final message is the
literal byte string `b"aws4_request"`. -/
def r2_signing_key (secret_access_key date_str : RStr) : RStr :=
  let k_date := hmacSha256Bytes (strB "AWS4" ++ secret_access_key) date_str
  let k_region := hmacSha256Bytes k_date (strB "auto")
  let k_service := hmacSha256Bytes k_region (strB "s3")
  hmacSha256Bytes k_service (strB "aws4_request")

/-- Modelled from the claim wording of C2: four chained HMAC-SHA256 steps,
`prefix+secret`, messages `date`, `region`, `service`, `"request"`. -/
def claimDeriveSigningKey (pfx secret date region service : RStr) : RStr :=
  hmacSha256Bytes
    (hmacSha256Bytes (hmacSha256Bytes (hmacSha256Bytes (pfx ++ secret) date) region) service)
    (strB "request")

/-- `R2Config` (main.rs:980–995), the fields the signing path reads. -/
structure R2Config where
  account_id : RStr
  access_key_id : RStr
  secret_access_key : RStr
  bucket_name : RStr

/-- The strings derived by `test_r2_connection` before the HTTP call. -/
structure R2SignParts where
  date_str : RStr
  datetime_str : RStr
  canonical_headers : RStr
  credential_scope : RStr
  authorization_header : RStr

/-- The signing computation of `test_r2_connection` (main.rs:1029–1066):
both `date_str` and `datetime_str` are formatted from the single
`Utc::now()` value, passed in as `now`. -/
def test_r2_connection_sign (config : R2Config) (now : UtcTime) : R2SignParts :=
  let date_str := formatDate now
  let datetime_str := formatBasicTs now
  let host := config.account_id ++ strB ".r2.cloudflarestorage.com"
  let canonical_uri := strB "/" ++ config.bucket_name
  let canonical_querystring : RStr := []
  let canonical_headers := strB "host:" ++ host ++ [NL] ++
    strB "x-amz-content-sha256:UNSIGNED-PAYLOAD" ++ [NL] ++
    strB "x-amz-date:" ++ datetime_str ++ [NL]
  let signed_headers := strB "host;x-amz-content-sha256;x-amz-date"
  let payload_hash := strB "UNSIGNED-PAYLOAD"
  let canonical_request := strB "HEAD" ++ [NL] ++ canonical_uri ++ [NL] ++
    canonical_querystring ++ [NL] ++ canonical_headers ++ [NL] ++ signed_headers ++
    [NL] ++ payload_hash
  let canonical_request_hash := hexEncode (sha256 canonical_request)
  let credential_scope := date_str ++ strB "/auto/s3/aws4_request"
  let string_to_sign := strB "AWS4-HMAC-SHA256" ++ [NL] ++ datetime_str ++ [NL] ++
    credential_scope ++ [NL] ++ canonical_request_hash
  let k_signing := r2_signing_key config.secret_access_key date_str
  let signature := hexEncode (hmacSha256Bytes k_signing string_to_sign)
  let authorization_header := strB "AWS4-HMAC-SHA256 Credential=" ++ config.access_key_id ++
    strB "/" ++ credential_scope ++ strB ", SignedHeaders=" ++ signed_headers ++
    strB ", Signature=" ++ signature
  ⟨date_str, datetime_str, canonical_headers, credential_scope, authorization_header⟩

/-- Modelled from the claim wording of C1: query pairs percent-encoded
first, then sorted lexicographically by (encoded) key, then joined. -/
def claimCanonicalQuery (query_params : List (RStr × RStr)) : RStr :=
  joinB (strB "&")
    ((sortByKey (query_params.map (fun p => (urlencode p.1, urlencode p.2)))).map
      (fun p => p.1 ++ strB "=" ++ p.2))

/-- Headers lowercased, sorted lexicographically by name, serialized
`name:value` (claim wording; here it matches the code). -/
def claimCanonicalHeaders (headers : List (RStr × RStr)) : RStr :=
  joinB [NL] ((sortByKey (headers.map (fun p => (toLowerBytes p.1, p.2)))).map
    (fun p => p.1 ++ strB ":" ++ p.2))

/-- The signed (lowercased, sorted) header names, `;`-joined. -/
def claimSignedHeaderNames (headers : List (RStr × RStr)) : RStr :=
  joinB (strB ";") ((sortByKey (headers.map (fun p => (toLowerBytes p.1, p.2)))).map Prod.fst)

/-- The canonical request exactly as claim C1 words it (encode, then sort). -/
def claimCanonicalRequest (method uri : RStr) (query_params headers : List (RStr × RStr)) : RStr :=
  method ++ [NL] ++ uri ++ [NL] ++ claimCanonicalQuery query_params ++ [NL] ++
    claimCanonicalHeaders headers ++ [NL, NL] ++ claimSignedHeaderNames headers ++ [NL] ++
    strB "UNSIGNED-PAYLOAD"

/-- The canonical query as the code builds it: sorted by raw key first,
then percent-encoded (nami.rs:162–167). -/
def amendedCanonicalQuery (query_params : List (RStr × RStr)) : RStr :=
  joinB (strB "&") ((sortByKey query_params).map
    (fun p => urlencode p.1 ++ strB "=" ++ urlencode p.2))

/-- `calculate_file_hash` (nami.rs:56–61): lowercase hex of the SHA-1
digest (all 40 hex characters). -/
def calculate_file_hash (buffer : RStr) : RStr := hexEncode (sha1 buffer)

def splitByteAux (sep : Nat) : RStr → RStr → List RStr
  | [], acc => [acc.reverse]
  | b :: rest, acc =>
    if b = sep then acc.reverse :: splitByteAux sep rest []
    else splitByteAux sep rest (b :: acc)

/-- Rust `str::split(sep)` on a byte string: always yields at least one
piece. -/
def splitByte (sep : Nat) (s : RStr) : List RStr := splitByteAux sep s []

/-- The lowercased extension `upload_to_nami` extracts from the file name:
`file_name.split('.').last()`, lowercased (nami.rs:475–477). -/
def extOf (file_name : RStr) : Option RStr :=
  ((splitByte 46 file_name).getLast?).map toLowerBytes

/-- The object key `upload_to_nami` computes (nami.rs:480–481):
`web/{sha1-hex}.{ext}`. -/
def namiKeyFromExt (buffer ext : RStr) : RStr :=
  strB "web/" ++ calculate_file_hash buffer ++ strB "." ++ ext

/-- The object key as a function of file bytes and file name. -/
def nami_file_key (buffer file_name : RStr) : Option RStr :=
  (extOf file_name).map (namiKeyFromExt buffer)

/-- The public CDN URL of an object key (nami.rs:213, 492, 578). -/
def namiUrlOf (file_key : RStr) : RStr := CDN_BASE ++ strB "/" ++ file_key

/-- Outcome of one HTTP send: a network-level failure (connect error,
timeout, …) or a response carrying a status code and a model of the body. -/
inductive HttpOutcome (β : Type) where
  | netErr (msg : RStr)
  | resp (status : Nat) (body : β)
deriving DecidableEq

/-- reqwest `StatusCode::is_success`: 2xx. -/
def statusIsSuccess (s : Nat) : Bool := Nat.ble 200 s && Nat.ble s 299

/-- reqwest `StatusCode::is_client_error`: 4xx. -/
def statusIsClientError (s : Nat) : Bool := Nat.ble 400 s && Nat.ble s 499

/-- Transport for the CDN HEAD probe: URL and the timeout in seconds the
request carries, to the outcome. -/
def HeadTransport : Type := RStr → Nat → HttpOutcome Unit

/-- `check_file_exists` (nami.rs:211–218): HEAD on the CDN URL with a
5-second timeout; `true` only for a 2xx response, `false` on any error. -/
def check_file_exists (t : HeadTransport) (file_key : RStr) : Bool :=
  let url := namiUrlOf file_key
  match t url 5 with
  | .netErr _ => false
  | .resp status _ => statusIsSuccess status

/-- Parsed `STSCredentials` (nami.rs:33–39). -/
structure STSCredentials where
  access_key : RStr
  secret_access_key : RStr
  session_token : RStr
deriving DecidableEq

/-- Parsed `STSResponse` (nami.rs:41–46). -/
structure STSResponse where
  code : Int
  data : Option STSCredentials
  msg : Option RStr
deriving DecidableEq

/-- Body of the STS response: raw text plus its `serde_json` parse outcome
(the JSON layer is modelled by the parse result the environment supplies). -/
structure StsBody where
  text : RStr
  parsed : Option STSResponse
deriving DecidableEq

/-- The response handling of `get_sts_credentials` (nami.rs:233–279),
as a function of the HTTP outcome.  Status digits stand in for the
`Display` rendering of the status code. -/
def get_sts_credentials (o : HttpOutcome StsBody) : Except AppError STSCredentials :=
  match o with
  | .netErr m => .error (.Network (strB "STS 请求失败: " ++ m))
  | .resp status body =>
    if statusIsSuccess status then
      match body.parsed with
      | none => .error (AppError.upload (strB "纳米") (strB "解析 STS 响应失败: " ++ body.text))
      | some sts =>
        if sts.code = 0 then
          match sts.data with
          | none => .error (AppError.upload (strB "纳米") (strB "STS 响应中没有 data"))
          | some creds => .ok creds
        else
          .error (AppError.upload (strB "纳米") (strB "STS 返回错误: " ++ sts.msg.getD []))
    else
      .error (AppError.upload (strB "纳米")
        (strB "STS 请求失败 (HTTP " ++ decDigits status ++ strB "): " ++ body.text))

/-- Body of the init response: raw text plus the upload-id the source's
two-branch parse (JSON if the text starts with a brace, else an XML tag
split) extracts; the extraction outcome is supplied by the environment. -/
structure InitBody where
  text : RStr
  uploadId : Option RStr
deriving DecidableEq

/-- `init_multipart_upload` (nami.rs:282–342): signs with `Utc::now()`
(passed as `now`), issues the POST, fails on any non-2xx status. -/
def init_multipart_upload (credentials : STSCredentials) (now : UtcTime)
    (file_key : RStr) (o : HttpOutcome InitBody) : Except AppError RStr := do
  let signer : TosSigner :=
    ⟨credentials.access_key, credentials.secret_access_key, credentials.session_token⟩
  let _signed_headers ← signer.sign now (strB "POST") (strB "/" ++ file_key)
    [(strB "uploads", ([] : RStr))]
  match o with
  | .netErr m => .error (.Network (strB "初始化上传请求失败: " ++ m))
  | .resp status body =>
    if statusIsSuccess status then
      match body.uploadId with
      | some uid => .ok uid
      | none => .error (AppError.upload (strB "纳米") (strB "无法解析 UploadId: " ++ body.text))
    else
      .error (AppError.upload (strB "纳米")
        (strB "初始化上传失败 (HTTP " ++ decDigits status ++ strB "): " ++ body.text))

/-- Body of the part response: response text and the `etag` header. -/
structure PartBody where
  text : RStr
  etag : Option RStr
deriving DecidableEq

/-- `upload_part` (nami.rs:345–400). -/
def upload_part (credentials : STSCredentials) (now : UtcTime)
    (file_key upload_id : RStr) (part_number : Nat) (o : HttpOutcome PartBody) :
    Except AppError RStr := do
  let signer : TosSigner :=
    ⟨credentials.access_key, credentials.secret_access_key, credentials.session_token⟩
  let _signed_headers ← signer.sign now (strB "PUT") (strB "/" ++ file_key)
    [(strB "partNumber", decDigits part_number), (strB "uploadId", upload_id)]
  match o with
  | .netErr m => .error (.Network (strB "上传分片失败: " ++ m))
  | .resp status body =>
    if statusIsSuccess status then
      match body.etag with
      | some etag => .ok etag
      | none => .error (AppError.upload (strB "纳米") (strB "响应中没有 ETag"))
    else
      .error (AppError.upload (strB "纳米")
        (strB "上传分片失败 (HTTP " ++ decDigits status ++ strB "): " ++ body.text))

/-- `complete_multipart_upload` (nami.rs:403–453); `parts` feeds only the
request body. -/
def complete_multipart_upload (credentials : STSCredentials) (now : UtcTime)
    (file_key upload_id : RStr) (parts : List (Nat × RStr)) (o : HttpOutcome RStr) :
    Except AppError Unit := do
  let signer : TosSigner :=
    ⟨credentials.access_key, credentials.secret_access_key, credentials.session_token⟩
  let _signed_headers ← signer.sign now (strB "POST") (strB "/" ++ file_key)
    [(strB "uploadId", upload_id)]
  let _parts := parts
  match o with
  | .netErr m => .error (.Network (strB "完成上传请求失败: " ++ m))
  | .resp status body =>
    if statusIsSuccess status then .ok ()
    else
      .error (AppError.upload (strB "纳米")
        (strB "完成上传失败 (HTTP " ++ decDigits status ++ strB "): " ++ body))

/-- One network call issued by `upload_to_nami`, in issue order. -/
inductive NamiCall where
  | headProbe (url : RStr)
  | fetchDynamicHeaders
  | stsRequest
  | initRequest
  | partRequest (part_number : Nat)
  | completeRequest
deriving DecidableEq

/-- The environment of one `upload_to_nami` run: the outcome of each network
interaction it may perform, and the `Utc::now()` of each signing call. -/
structure NamiEnv where
  headTransport : HeadTransport
  dynamicHeaders : Except AppError Unit
  stsOutcome : HttpOutcome StsBody
  initNow : UtcTime
  initOutcome : HttpOutcome InitBody
  partNow : UtcTime
  partOutcome : HttpOutcome PartBody
  completeNow : UtcTime
  completeOutcome : HttpOutcome RStr

/-- `NamiUploadResult` (nami.rs:26–30). -/
structure NamiUploadResult where
  url : RStr
  size : Nat
  instant : Bool
deriving DecidableEq

/-- `upload_to_nami` (nami.rs:457–589), paired with the trace of network
calls it issues.  File reading is modelled by passing the bytes and the
file name directly (`read_file_bytes` returns the bytes and their length);
progress events are UI-only and not modelled. -/
def upload_to_nami (env : NamiEnv) (buffer file_name : RStr) :
    Except AppError NamiUploadResult × List NamiCall :=
  let file_size := buffer.length
  match extOf file_name with
  | none => (.error (.Validation (strB "无法获取文件扩展名")), [])
  | some ext =>
    let file_key := namiKeyFromExt buffer ext
    let url := namiUrlOf file_key
    if check_file_exists env.headTransport file_key then
      (.ok ⟨url, file_size, true⟩, [.headProbe url])
    else
      match env.dynamicHeaders with
      | .error e => (.error e, [.headProbe url, .fetchDynamicHeaders])
      | .ok _ =>
        match get_sts_credentials env.stsOutcome with
        | .error e => (.error e, [.headProbe url, .fetchDynamicHeaders, .stsRequest])
        | .ok credentials =>
          match init_multipart_upload credentials env.initNow file_key env.initOutcome with
          | .error e =>
            (.error e, [.headProbe url, .fetchDynamicHeaders, .stsRequest, .initRequest])
          | .ok upload_id =>
            match upload_part credentials env.partNow file_key upload_id 1 env.partOutcome with
            | .error e =>
              (.error e,
               [.headProbe url, .fetchDynamicHeaders, .stsRequest, .initRequest, .partRequest 1])
            | .ok etag =>
              match complete_multipart_upload credentials env.completeNow file_key upload_id
                  [(1, etag)] env.completeOutcome with
              | .error e =>
                (.error e,
                 [.headProbe url, .fetchDynamicHeaders, .stsRequest, .initRequest,
                  .partRequest 1, .completeRequest])
              | .ok _ =>
                (.ok ⟨url, file_size, false⟩,
                 [.headProbe url, .fetchDynamicHeaders, .stsRequest, .initRequest,
                  .partRequest 1, .completeRequest])

/-- `true` when the first string has the second as a leading segment. -/
def isPrefixB : RStr → RStr → Bool
  | [], _ => true
  | _ :: _, [] => false
  | a :: x, b :: y => a == b && isPrefixB x y

/-- Rust `str::contains` on byte strings. -/
def containsSub : RStr → RStr → Bool
  | [], needle => needle.isEmpty
  | a :: rest, needle => isPrefixB needle (a :: rest) || containsSub rest needle

/-- `is_retriable_error` (s3_compatible.rs:338–344). -/
def is_retriable_error (error_msg : RStr) : Bool :=
  containsSub error_msg (strB "dispatch failure") ||
  containsSub error_msg (strB "connection reset") ||
  containsSub error_msg (strB "connection closed") ||
  containsSub error_msg (strB "timeout") ||
  containsSub error_msg (strB "hyper")

/-- One attempt outcome of the SDK call inside `test_s3_connection`: the
outer tokio timeout elapsing, an SDK error rendered to its message, or a
successful listing. -/
inductive S3Attempt where
  | timeoutElapsed
  | sdkErr (msg : RStr)
  | success (object_count : Nat)
deriving DecidableEq

/-- Result of a bounded-retry loop: the outcome, the number of attempts
actually made, and the backoff delays slept (milliseconds, in order). -/
structure RetryRun (α ε : Type) where
  result : Except ε α
  attempts : Nat
  delays : List Nat

/-- The retry loop of `test_s3_connection` (s3_compatible.rs:379–453).
`attempt` is 1-based as in the source; `remaining` is structural fuel
(the loop runs at most `MAX_RETRIES = 3` iterations, so fuel 3 is exact).
Upstream config validation and endpoint building are not modelled; message
interpolations of bucket/service names are abbreviated to their fixed
parts. -/
def test_s3_connection_go (resp : Nat → S3Attempt) : Nat → Nat → RetryRun RStr AppError
  | _, 0 => ⟨.error (.Storage (strB "连接失败")), 0, []⟩
  | attempt, remaining + 1 =>
    match resp attempt with
    | .success _ => ⟨.ok (strB "连接成功！"), 1, []⟩
    | .sdkErr m =>
      if containsSub m (strB "NoSuchBucket") then
        ⟨.error (.Storage (strB "存储桶不存在")), 1, []⟩
      else if containsSub m (strB "AccessDenied") || containsSub m (strB "InvalidAccessKeyId") then
        ⟨.error (.Auth (strB "认证失败: 请检查 Access Key 和 Secret Key")), 1, []⟩
      else if containsSub m (strB "SignatureDoesNotMatch") then
        ⟨.error (.Auth (strB "签名错误: 请检查 Secret Key 是否正确")), 1, []⟩
      else if containsSub m (strB "InvalidBucketName") then
        ⟨.error (.Config (strB "无效的存储桶名称")), 1, []⟩
      else if is_retriable_error m && Nat.blt attempt 3 then
        let rest := test_s3_connection_go resp (attempt + 1) remaining
        ⟨rest.result, rest.attempts + 1, 100 * 2 ^ (attempt - 1) :: rest.delays⟩
      else ⟨.error (.Storage (strB "连接失败: " ++ m)), 1, []⟩
    | .timeoutElapsed =>
      if Nat.blt attempt 3 then
        let rest := test_s3_connection_go resp (attempt + 1) remaining
        ⟨rest.result, rest.attempts + 1, 100 * 2 ^ (attempt - 1) :: rest.delays⟩
      else ⟨.error (.Storage (strB "连接超时，请检查网络或配置")), 1, []⟩

/-- `test_s3_connection` retry behaviour (s3_compatible.rs:379–453). -/
def test_s3_connection (resp : Nat → S3Attempt) : RetryRun RStr AppError :=
  test_s3_connection_go resp 1 3

/-- One attempt outcome of the DELETE call in `delete_r2_object`. -/
inductive DeleteAttempt where
  | netErr (timeout_or_connect : Bool) (msg : RStr)
  | resp (status : Nat) (body : RStr)
deriving DecidableEq

/-- The retry loop of `delete_r2_object` (main.rs:1438–1487).  `attempt` is
0-based as in the source (`for attempt in 0..max_retries`); the sleep of
`500ms * (1 << attempt)` happens at the top of every retry iteration.  Any
send error `continue`s (both the timeout/connect branch and the fall-through
branch); a 4xx response returns immediately; a non-2xx non-4xx response
records the error and retries. -/
def delete_r2_object_go (resp : Nat → DeleteAttempt) (last_error : RStr) :
    Nat → Nat → RetryRun RStr RStr
  | _, 0 => ⟨.error (strB "删除失败（已重试 3 次）: " ++ last_error), 0, []⟩
  | attempt, remaining + 1 =>
    let delays0 := if 0 < attempt then [500 * 2 ^ attempt] else []
    match resp attempt with
    | .resp status body =>
      if statusIsSuccess status then ⟨.ok (strB "成功删除"), 1, delays0⟩
      else
        let le := strB "删除对象失败 (HTTP " ++ decDigits status ++ strB "): " ++ body
        if statusIsClientError status then ⟨.error le, 1, delays0⟩
        else
          let rest := delete_r2_object_go resp le (attempt + 1) remaining
          ⟨rest.result, rest.attempts + 1, delays0 ++ rest.delays⟩
    | .netErr _ m =>
      let le := strB "请求失败: " ++ m
      let rest := delete_r2_object_go resp le (attempt + 1) remaining
      ⟨rest.result, rest.attempts + 1, delays0 ++ rest.delays⟩

/-- `delete_r2_object` retry behaviour (main.rs:1438–1487). -/
def delete_r2_object_run (resp : Nat → DeleteAttempt) : RetryRun RStr RStr :=
  delete_r2_object_go resp [] 0 3

/-- `ChaoxingApiResponse` (chaoxing.rs:19–24). -/
structure ChaoxingApiResponse where
  status : Option Bool
  url : Option RStr
  msg : Option RStr
deriving DecidableEq

/-- The response-classification tail of `test_chaoxing_connection`
(chaoxing.rs:87–102): response text and its `serde_json` parse outcome
(supplied by the environment) to the result. -/
def chaoxing_classify (response_text : RStr) (parsed : Option ChaoxingApiResponse) :
    Except AppError RStr :=
  if containsSub response_text (strB "<!DOCTYPE html>") ||
      containsSub response_text (strB "<html") then
    .error (.Auth (strB "Cookie 已过期或无效，请重新登录"))
  else
    match parsed with
    | none => .error (.Auth (strB "Cookie 无效或已过期（无法解析响应）"))
    | some api =>
      if api.status = some true ∧ api.url.isSome then .ok (strB "Cookie 验证通过")
      else .error (.Auth (strB "Cookie 无效: " ++ (api.msg.getD (strB "未知错误"))))

/-- `true` only for the `Auth` variant of `AppError`. -/
def AppError.isAuth : AppError → Bool
  | .Auth _ => true
  | _ => false

/-- The `code` field carried by an `Upload` error (`None` otherwise). -/
def AppError.uploadCode : AppError → Option Int
  | .Upload _ c _ => c
  | _ => none

/-- The message field of an `AppError`. -/
def AppError.messageOf : AppError → RStr
  | .Network m => m
  | .Auth m => m
  | .FileIo m => m
  | .Upload _ _ m => m
  | .Config m => m
  | .Clipboard m => m
  | .External m => m
  | .Validation m => m
  | .WebDAV m => m
  | .Storage m => m

/-- `true` only for an `error` result whose error is `Auth`-kind. -/
def exceptIsAuthErr {α : Type} : Except AppError α → Bool
  | .error e => e.isAuth
  | .ok _ => false

/-- A test environment whose CDN probe reports the object present. -/
def envHit : NamiEnv :=
  ⟨fun _ _ => .resp 200 (), .ok (), .netErr [], ⟨2026, 1, 1, 0, 0, 0⟩, .netErr [],
   ⟨2026, 1, 1, 0, 0, 0⟩, .netErr [], ⟨2026, 1, 1, 0, 0, 0⟩, .netErr []⟩

/-- A test environment: the probe misses, dynamic headers and STS succeed,
and the init call answers HTTP 403. -/
def envInit403 : NamiEnv :=
  ⟨fun _ _ => .netErr [], .ok (),
   .resp 200 ⟨[], some ⟨0, some ⟨strB "AK", strB "SK", strB "TOK"⟩, none⟩⟩,
   ⟨2026, 1, 1, 0, 0, 0⟩, .resp 403 ⟨[], none⟩,
   ⟨2026, 1, 1, 0, 0, 0⟩, .netErr [], ⟨2026, 1, 1, 0, 0, 0⟩, .netErr []⟩

/-- A test environment: probe misses, STS and init succeed, the part
upload answers HTTP 500. -/
def envPart500 : NamiEnv :=
  ⟨fun _ _ => .netErr [], .ok (),
   .resp 200 ⟨[], some ⟨0, some ⟨strB "AK", strB "SK", strB "TOK"⟩, none⟩⟩,
   ⟨2026, 1, 1, 0, 0, 0⟩, .resp 200 ⟨[], some (strB "UID")⟩,
   ⟨2026, 1, 1, 0, 0, 0⟩, .resp 500 ⟨[], none⟩, ⟨2026, 1, 1, 0, 0, 0⟩, .netErr []⟩

/-- A test environment: probe misses, STS, init and part succeed, the
complete call answers HTTP 503. -/
def envComplete503 : NamiEnv :=
  ⟨fun _ _ => .netErr [], .ok (),
   .resp 200 ⟨[], some ⟨0, some ⟨strB "AK", strB "SK", strB "TOK"⟩, none⟩⟩,
   ⟨2026, 1, 1, 0, 0, 0⟩, .resp 200 ⟨[], some (strB "UID")⟩,
   ⟨2026, 1, 1, 0, 0, 0⟩, .resp 200 ⟨[], some (strB "ETAG")⟩,
   ⟨2026, 1, 1, 0, 0, 0⟩, .resp 503 []⟩

/-- Four chained HMAC-SHA256 steps with an explicit final message: the
shared shape of the TOS chain (final message `"request"`) and the AWS chain
(final message `"aws4_request"`). -/
def deriveKeyChain (pfx secret date region service finalMsg : RStr) : RStr :=
  hmacSha256Bytes
    (hmacSha256Bytes (hmacSha256Bytes (hmacSha256Bytes (pfx ++ secret) date) region) service)
    finalMsg

/-- `true` when one attempt outcome of `test_s3_connection` makes the loop
retry (budget permitting): the outer timeout elapsing, or an SDK error that
matches none of the terminal classifications and is a retriable network
error (s3_compatible.rs:397–449). -/
def s3AttemptRetries : S3Attempt → Bool
  | .timeoutElapsed => true
  | .sdkErr m =>
      !containsSub m (strB "NoSuchBucket") &&
      !containsSub m (strB "AccessDenied") &&
      !containsSub m (strB "InvalidAccessKeyId") &&
      !containsSub m (strB "SignatureDoesNotMatch") &&
      !containsSub m (strB "InvalidBucketName") &&
      is_retriable_error m
  | .success _ => false

/-- `true` when one attempt outcome of `delete_r2_object` makes the loop
retry: any send error, or a response that is neither 2xx nor 4xx
(main.rs:1448–1484). -/
def deleteAttemptRetries : DeleteAttempt → Bool
  | .netErr _ _ => true
  | .resp st _ => !statusIsSuccess st && !statusIsClientError st

/-- A connectivity-test attempt sequence: first a timeout, then
`AccessDenied`. -/
def s3TimeoutThenAuth : Nat → S3Attempt :=
  fun i => if i = 1 then .timeoutElapsed else .sdkErr (strB "AccessDenied")

/-- A delete attempt sequence: first a network error, then HTTP 403. -/
def delNetErrThen403 : Nat → DeleteAttempt :=
  fun i => if i = 0 then .netErr true (strB "timeout") else .resp 403 (strB "denied")

/-! ## Order and sorting lemmas -/

theorem bytesLe_total (x y : RStr) : bytesLe x y = true ∨ bytesLe y x = true := by
  induction x generalizing y with
  | nil => left; rfl
  | cons a xs ih =>
    cases y with
    | nil => right; rfl
    | cons b ys =>
      rcases Nat.lt_trichotomy a b with h | h | h
      · left; simp [bytesLe, h]
      · subst h
        rcases ih ys with h2 | h2
        · left; simp [bytesLe, Nat.lt_irrefl, h2]
        · right; simp [bytesLe, Nat.lt_irrefl, h2]
      · right; simp [bytesLe, h]

theorem bytesLe_trans (x y z : RStr) (hxy : bytesLe x y = true) (hyz : bytesLe y z = true) :
    bytesLe x z = true := by
  induction x generalizing y z with
  | nil => rfl
  | cons a xs ih =>
    cases y with
    | nil => simp [bytesLe] at hxy
    | cons b ys =>
      cases z with
      | nil => simp [bytesLe] at hyz
      | cons c zs =>
        simp only [bytesLe] at hxy hyz ⊢
        rcases Nat.lt_trichotomy a b with hab | hab | hab
        · rcases Nat.lt_trichotomy b c with hbc | hbc | hbc
          · simp [Nat.lt_trans hab hbc]
          · subst hbc; simp [hab]
          · simp [Nat.lt_asymm hbc, hbc] at hyz
        · subst hab
          rcases Nat.lt_trichotomy a c with hac | hac | hac
          · simp [hac]
          · subst hac
            simp [Nat.lt_irrefl] at hxy hyz ⊢
            exact ih _ _ hxy hyz
          · simp [Nat.lt_asymm hac, hac] at hyz
        · simp [Nat.lt_asymm hab, hab] at hxy

theorem bytesLe_antisymm (x y : RStr) (hxy : bytesLe x y = true) (hyx : bytesLe y x = true) :
    x = y := by
  induction x generalizing y with
  | nil =>
    cases y with
    | nil => rfl
    | cons b ys => simp [bytesLe] at hyx
  | cons a xs ih =>
    cases y with
    | nil => simp [bytesLe] at hxy
    | cons b ys =>
      simp only [bytesLe] at hxy hyx
      rcases Nat.lt_trichotomy a b with hab | hab | hab
      · simp [Nat.lt_asymm hab, hab] at hyx
      · subst hab
        simp [Nat.lt_irrefl] at hxy hyx
        rw [ih ys hxy hyx]
      · simp [Nat.lt_asymm hab, hab] at hxy

instance : IsTotal (RStr × RStr) pairKeyLe := ⟨fun p q => bytesLe_total p.1 q.1⟩

instance : IsTrans (RStr × RStr) pairKeyLe :=
  ⟨fun p q r h1 h2 => bytesLe_trans p.1 q.1 r.1 h1 h2⟩

instance : IsAntisymm (RStr × RStr) pairKeyLt :=
  ⟨fun p q h1 h2 => absurd (bytesLe_antisymm p.1 q.1 h1.1 h2.1) h1.2⟩

theorem sortByKey_sorted (l : List (RStr × RStr)) : (sortByKey l).Sorted pairKeyLe :=
  List.sorted_insertionSort pairKeyLe l

theorem sortByKey_perm (l : List (RStr × RStr)) : (sortByKey l).Perm l :=
  List.perm_insertionSort pairKeyLe l

/-- Sorting by key is permutation-invariant when the keys are pairwise
distinct: two stable sorts of key-distinct permutations coincide. -/
theorem sortByKey_eq_of_perm {l₁ l₂ : List (RStr × RStr)} (hp : l₁.Perm l₂)
    (hn : (l₁.map Prod.fst).Nodup) : sortByKey l₁ = sortByKey l₂ := by
  have hp' : (sortByKey l₁).Perm (sortByKey l₂) :=
    ((sortByKey_perm l₁).trans hp).trans (sortByKey_perm l₂).symm
  have hn₁ : ((sortByKey l₁).map Prod.fst).Nodup :=
    ((sortByKey_perm l₁).map Prod.fst).nodup_iff.mpr hn
  have hn₂ : ((sortByKey l₂).map Prod.fst).Nodup := (hp'.map Prod.fst).nodup_iff.mp hn₁
  have hne₁ : (sortByKey l₁).Pairwise (fun p q => p.1 ≠ q.1) := List.pairwise_map.mp hn₁
  have hne₂ : (sortByKey l₂).Pairwise (fun p q => p.1 ≠ q.1) := List.pairwise_map.mp hn₂
  have hs₁ : (sortByKey l₁).Sorted pairKeyLt := (sortByKey_sorted l₁).and hne₁
  have hs₂ : (sortByKey l₂).Sorted pairKeyLt := (sortByKey_sorted l₂).and hne₂
  exact List.eq_of_perm_of_sorted hp' hs₁ hs₂

/-! ## Signing-helper lemmas -/

theorem tos_hmac_sha256_ok (key data : RStr) :
    TosSigner.hmac_sha256 key data = .ok (hmacSha256Bytes key data) := rfl

theorem get_signing_key_ok (s : TosSigner) (date : RStr) :
    s.get_signing_key date = .ok (deriveKeyChain [] s.secret_key date TOS_REGION TOS_SERVICE
      (strB "request")) := rfl

/-! ## Claim theorems -/

/-- C2 (amended): signing-key derivation is exactly the four chained
HMAC-SHA256 steps `k_date = HMAC(prefix+secret, date)`, `k_region =
HMAC(k_date, region)`, `k_service = HMAC(k_region, service)`, `k_signing =
HMAC(k_service, FINAL)`, where the AWS variant prefixes the secret with
`AWS4` and uses the final message `"aws4_request"`, while the TOS variant
uses the raw unprefixed secret and the final message `"request"`. -/
theorem C2_signing_key_chain :
    (∀ (s : TosSigner) (date : RStr),
      s.get_signing_key date =
        .ok (deriveKeyChain [] s.secret_key date TOS_REGION TOS_SERVICE (strB "request"))) ∧
    (∀ secret date : RStr,
      r2_signing_key secret date =
        deriveKeyChain (strB "AWS4") secret date (strB "auto") (strB "s3")
          (strB "aws4_request")) :=
  ⟨fun _ _ => rfl, fun _ _ => rfl⟩

/-- C2 counterexample: the AWS-variant signing key of `test_r2_connection`
differs from the chain the claim states (final message `"request"`) already
at a concrete secret and date, because the code's final message is
`"aws4_request"`. -/
theorem C2_counterexample :
    r2_signing_key (strB "k") (strB "20260101") ≠
      claimDeriveSigningKey (strB "AWS4") (strB "k") (strB "20260101") (strB "auto")
        (strB "s3") := by decide

/-- C5 (amended): for every key (of any length) and message neither signing
path panics, because HMAC-SHA256 key setup accepts any key length: the TOS
helper returns `Ok` with the MAC, and the R2 helper returns the MAC value
(its `expect` branch is never taken).  The TOS helper maps a construction
failure to a typed error, while the R2 helper would panic on one. -/
theorem C5_hmac_no_panic (key data : RStr) :
    TosSigner.hmac_sha256 key data = .ok (hmacSha256Bytes key data) ∧
    main_hmac_sha256 key data = .value (hmacSha256Bytes key data) := ⟨rfl, rfl⟩

/-- C5 counterexample: on a key-material failure the R2 signing helper
(main.rs:1101–1105) panics via `expect` instead of returning a typed error:
its continuation after the constructor yields `panicked`, not an error
value. -/
theorem C5_counterexample :
    main_hmac_sha256_ctor (.error .mk) (strB "data") =
      .panicked (strB "HMAC can take key of any size") := rfl

/-- C1 (amended): `build_canonical_request` returns
`METHOD\nURI\nQUERY\nHEADERS\n\nSIGNED_HEADER_NAMES\nUNSIGNED-PAYLOAD`,
with a double newline after the headers block, headers lowercased, sorted
lexicographically by name and serialized `name:value`, and the query built
by sorting the parameters lexicographically by raw key and then
percent-encoding them per RFC 3986 (an empty list serializes as the empty
string).  (The code sorts before encoding, not after as the claim words
it.) -/
theorem C1_canonical_request (method uri : RStr) (query_params headers : List (RStr × RStr))
    (huri : uri ≠ []) :
    build_canonical_request method uri query_params headers =
      method ++ [NL] ++ uri ++ [NL] ++ amendedCanonicalQuery query_params ++ [NL] ++
      claimCanonicalHeaders headers ++ [NL, NL] ++ claimSignedHeaderNames headers ++ [NL] ++
      strB "UNSIGNED-PAYLOAD" := by
  unfold build_canonical_request amendedCanonicalQuery claimCanonicalHeaders
    claimSignedHeaderNames
  simp [huri]

/-- C1 witness: the amended normal form at a concrete request. -/
theorem C1_canonical_request_witness :
    strB "/" ≠ ([] : RStr) ∧
    build_canonical_request (strB "GET") (strB "/")
        [(strB "b", strB "2"), (strB "a", strB "1")] [(strB "Host", strB "h")] =
      strB "GET" ++ [NL] ++ strB "/" ++ [NL] ++
      amendedCanonicalQuery [(strB "b", strB "2"), (strB "a", strB "1")] ++ [NL] ++
      claimCanonicalHeaders [(strB "Host", strB "h")] ++ [NL, NL] ++
      claimSignedHeaderNames [(strB "Host", strB "h")] ++ [NL] ++ strB "UNSIGNED-PAYLOAD" :=
  ⟨by decide, C1_canonical_request _ _ _ _ (by decide)⟩

/-- C1 counterexample: with query keys `"."` and `"/"` the code's output
(sort by raw key, then encode: `.=a&%2F=b`) differs from the claim's
encode-then-sort serialization (`%2F=b&.=a`). -/
theorem C1_counterexample :
    build_canonical_request (strB "GET") (strB "/")
        [(strB "/", strB "b"), (strB ".", strB "a")] [(strB "host", strB "h")] ≠
      claimCanonicalRequest (strB "GET") (strB "/")
        [(strB "/", strB "b"), (strB ".", strB "a")] [(strB "host", strB "h")] := by decide

/-- C4 (amended): `build_canonical_request` is a pure function (identical
inputs give identical output by construction), and its output is invariant
under permutation of the query-parameter and header lists provided the
query keys are pairwise distinct and the header names are pairwise distinct
after lowercasing — with a duplicated key, the stable sort preserves the
input order of the duplicates, so different permutations can differ. -/
theorem C4_canonicalization_permutation_invariance
    (method uri : RStr) (q₁ q₂ h₁ h₂ : List (RStr × RStr))
    (hq : q₁.Perm q₂) (hh : h₁.Perm h₂)
    (hqn : (q₁.map Prod.fst).Nodup)
    (hhn : (h₁.map (fun p => toLowerBytes p.1)).Nodup) :
    build_canonical_request method uri q₁ h₁ = build_canonical_request method uri q₂ h₂ := by
  have e1 : sortByKey q₁ = sortByKey q₂ := sortByKey_eq_of_perm hq hqn
  have hh' : (h₁.map (fun p => (toLowerBytes p.1, p.2))).Perm
      (h₂.map (fun p => (toLowerBytes p.1, p.2))) := hh.map _
  have hhn' : ((h₁.map (fun p => (toLowerBytes p.1, p.2))).map Prod.fst).Nodup := by
    rw [List.map_map]; exact hhn
  have e2 : sortByKey (h₁.map (fun p => (toLowerBytes p.1, p.2))) =
      sortByKey (h₂.map (fun p => (toLowerBytes p.1, p.2))) :=
    sortByKey_eq_of_perm hh' hhn'
  unfold build_canonical_request
  rw [e1, e2]

/-- C4 witness: permutation invariance at a concrete distinct-key input. -/
theorem C4_canonicalization_permutation_invariance_witness :
    build_canonical_request (strB "GET") (strB "/")
        [(strB "a", strB "1"), (strB "b", strB "2")] [(strB "X", strB "x")] =
      build_canonical_request (strB "GET") (strB "/")
        [(strB "b", strB "2"), (strB "a", strB "1")] [(strB "X", strB "x")] :=
  C4_canonicalization_permutation_invariance _ _ _ _ _ _ (by decide) (by decide)
    (by decide) (by decide)

/-- C4 counterexample: with a duplicated query key, two permutations of the
same input list produce different canonical requests (the stable sort keeps
the input order of equal keys), so the claimed invariance under every
permutation fails. -/
theorem C4_counterexample :
    build_canonical_request (strB "GET") (strB "/")
        [(strB "a", strB "1"), (strB "a", strB "2")] [] ≠
      build_canonical_request (strB "GET") (strB "/")
        [(strB "a", strB "2"), (strB "a", strB "1")] [] := by decide

theorem decDigitsAux_length_le (fuel : Nat) : ∀ n k, n < 10 ^ k → 0 < k →
    (decDigitsAux fuel n).length ≤ k := by
  induction fuel with
  | zero => intro n k _ _; simp [decDigitsAux]
  | succ fuel ih =>
    intro n k hn hk
    by_cases h : n < 10
    · simpa [decDigitsAux, h] using hk
    · have hk2 : 2 ≤ k := by
        by_contra hlt
        have hk1 : k = 1 := by omega
        subst hk1
        rw [pow_one] at hn
        omega
      have hks : (k - 1) + 1 = k := by omega
      have hlt10 : n < 10 ^ (k - 1) * 10 := by rw [← pow_succ, hks]; exact hn
      have hdiv : n / 10 < 10 ^ (k - 1) :=
        (Nat.div_lt_iff_lt_mul (by norm_num)).mpr hlt10
      have hrec := ih (n / 10) (k - 1) hdiv (by omega)
      simp only [decDigitsAux, if_neg h, List.length_append, List.length_cons,
        List.length_nil]
      omega

theorem decDigits_length_le_four (n : Nat) (h : n < 10000) : (decDigits n).length ≤ 4 :=
  decDigitsAux_length_le (n + 1) n 4 (by omega) (by omega)

theorem decDigits_length_le_two (n : Nat) (h : n < 100) : (decDigits n).length ≤ 2 :=
  decDigitsAux_length_le (n + 1) n 2 (by omega) (by omega)

theorem padZeroLeft_length (w : Nat) (s : RStr) (h : s.length ≤ w) :
    (padZeroLeft w s).length = w := by
  simp [padZeroLeft]
  omega

theorem formatDate_length (t : UtcTime) (hv : t.Valid) : (formatDate t).length = 8 := by
  obtain ⟨hy, hm, hd, _, _, _⟩ := hv
  simp [formatDate, padZeroLeft_length _ _ (decDigits_length_le_four _ hy),
    padZeroLeft_length _ _ (decDigits_length_le_two _ hm),
    padZeroLeft_length _ _ (decDigits_length_le_two _ hd)]

/-- The first eight bytes of the `YYYYMMDDTHHMMSSZ` timestamp are exactly
the `YYYYMMDD` date, for any chrono-producible instant. -/
theorem take8_formatBasicTs (t : UtcTime) (hv : t.Valid) :
    (formatBasicTs t).take 8 = formatDate t := by
  unfold formatBasicTs
  simp only [List.append_assoc]
  exact List.take_left' (formatDate_length t hv)

/-- C3: within one sign invocation the `YYYYMMDDTHHMMSSZ` timestamp is
computed once and reused: `TosSigner::sign` places the timestamp in the
`x-tos-date` header and its first 8 characters as the date field of the
credential scope inside `authorization`; `test_r2_connection` derives both
`date_str` (the scope's date field) and `datetime_str` (the `x-amz-date`
header value) from the same `Utc::now()`, so the scope date equals the
first 8 characters of the header timestamp. -/
theorem C3_timestamp_computed_once (s : TosSigner) (now : UtcTime) (method uri : RStr)
    (query_params : List (RStr × RStr)) (cfg : R2Config) (hv : now.Valid) :
    (∃ sig,
      s.sign now method uri query_params = .ok
        [(strB "host", TOS_HOST),
         (strB "x-tos-content-sha256", strB "UNSIGNED-PAYLOAD"),
         (strB "x-tos-date", formatBasicTs now),
         (strB "x-tos-security-token", s.session_token),
         (strB "authorization",
          strB "TOS4-HMAC-SHA256 Credential=" ++ s.access_key ++ strB "/" ++
            ((formatBasicTs now).take 8 ++ strB "/" ++ TOS_REGION ++ strB "/" ++ TOS_SERVICE ++
              strB "/request") ++
            strB ", SignedHeaders=" ++
            strB "host;x-tos-content-sha256;x-tos-date;x-tos-security-token" ++
            strB ", Signature=" ++ sig)]) ∧
    (test_r2_connection_sign cfg now).date_str = (formatBasicTs now).take 8 ∧
    (test_r2_connection_sign cfg now).datetime_str = formatBasicTs now ∧
    (test_r2_connection_sign cfg now).credential_scope =
      (formatBasicTs now).take 8 ++ strB "/auto/s3/aws4_request" ∧
    (test_r2_connection_sign cfg now).canonical_headers =
      strB "host:" ++ (cfg.account_id ++ strB ".r2.cloudflarestorage.com") ++ [NL] ++
      strB "x-amz-content-sha256:UNSIGNED-PAYLOAD" ++ [NL] ++
      strB "x-amz-date:" ++ formatBasicTs now ++ [NL] := by
  have hfd : (formatBasicTs now).take 8 = formatDate now := take8_formatBasicTs now hv
  refine ⟨⟨_, rfl⟩, hfd.symm, rfl, ?_, rfl⟩
  show formatDate now ++ strB "/auto/s3/aws4_request" =
    (formatBasicTs now).take 8 ++ strB "/auto/s3/aws4_request"
  rw [hfd]

/-- C3 witness: the two signing paths at a concrete instant. -/
theorem C3_timestamp_computed_once_witness :
    UtcTime.Valid ⟨2026, 1, 2, 3, 4, 5⟩ ∧
    ((∃ sig,
      TosSigner.sign ⟨strB "AK", strB "SK", strB "TOK"⟩ ⟨2026, 1, 2, 3, 4, 5⟩ (strB "POST")
          (strB "/web/x.png") [(strB "uploads", ([] : RStr))] = .ok
        [(strB "host", TOS_HOST),
         (strB "x-tos-content-sha256", strB "UNSIGNED-PAYLOAD"),
         (strB "x-tos-date", formatBasicTs ⟨2026, 1, 2, 3, 4, 5⟩),
         (strB "x-tos-security-token", strB "TOK"),
         (strB "authorization",
          strB "TOS4-HMAC-SHA256 Credential=" ++ strB "AK" ++ strB "/" ++
            ((formatBasicTs ⟨2026, 1, 2, 3, 4, 5⟩).take 8 ++ strB "/" ++ TOS_REGION ++ strB "/" ++
              TOS_SERVICE ++ strB "/request") ++
            strB ", SignedHeaders=" ++
            strB "host;x-tos-content-sha256;x-tos-date;x-tos-security-token" ++
            strB ", Signature=" ++ sig)]) ∧
    (test_r2_connection_sign ⟨strB "acc", strB "id", strB "sec", strB "bkt"⟩
        ⟨2026, 1, 2, 3, 4, 5⟩).date_str = (formatBasicTs ⟨2026, 1, 2, 3, 4, 5⟩).take 8 ∧
    (test_r2_connection_sign ⟨strB "acc", strB "id", strB "sec", strB "bkt"⟩
        ⟨2026, 1, 2, 3, 4, 5⟩).datetime_str = formatBasicTs ⟨2026, 1, 2, 3, 4, 5⟩ ∧
    (test_r2_connection_sign ⟨strB "acc", strB "id", strB "sec", strB "bkt"⟩
        ⟨2026, 1, 2, 3, 4, 5⟩).credential_scope =
      (formatBasicTs ⟨2026, 1, 2, 3, 4, 5⟩).take 8 ++ strB "/auto/s3/aws4_request" ∧
    (test_r2_connection_sign ⟨strB "acc", strB "id", strB "sec", strB "bkt"⟩
        ⟨2026, 1, 2, 3, 4, 5⟩).canonical_headers =
      strB "host:" ++ (strB "acc" ++ strB ".r2.cloudflarestorage.com") ++ [NL] ++
      strB "x-amz-content-sha256:UNSIGNED-PAYLOAD" ++ [NL] ++
      strB "x-amz-date:" ++ formatBasicTs ⟨2026, 1, 2, 3, 4, 5⟩ ++ [NL]) :=
  ⟨by decide,
   C3_timestamp_computed_once ⟨strB "AK", strB "SK", strB "TOK"⟩ ⟨2026, 1, 2, 3, 4, 5⟩
     (strB "POST") (strB "/web/x.png") [(strB "uploads", ([] : RStr))]
     ⟨strB "acc", strB "id", strB "sec", strB "bkt"⟩ (by decide)⟩

theorem init_multipart_upload_resp (creds : STSCredentials) (now : UtcTime) (key : RStr)
    (st : Nat) (body : InitBody) :
    init_multipart_upload creds now key (.resp st body) =
      if statusIsSuccess st then
        match body.uploadId with
        | some uid => .ok uid
        | none => .error (AppError.upload (strB "纳米") (strB "无法解析 UploadId: " ++ body.text))
      else
        .error (AppError.upload (strB "纳米")
          (strB "初始化上传失败 (HTTP " ++ decDigits st ++ strB "): " ++ body.text)) := rfl

theorem upload_part_resp (creds : STSCredentials) (now : UtcTime) (key uid : RStr)
    (n st : Nat) (body : PartBody) :
    upload_part creds now key uid n (.resp st body) =
      if statusIsSuccess st then
        match body.etag with
        | some etag => .ok etag
        | none => .error (AppError.upload (strB "纳米") (strB "响应中没有 ETag"))
      else
        .error (AppError.upload (strB "纳米")
          (strB "上传分片失败 (HTTP " ++ decDigits st ++ strB "): " ++ body.text)) := rfl

theorem complete_multipart_upload_resp (creds : STSCredentials) (now : UtcTime)
    (key uid : RStr) (parts : List (Nat × RStr)) (st : Nat) (body : RStr) :
    complete_multipart_upload creds now key uid parts (.resp st body) =
      if statusIsSuccess st then .ok ()
      else
        .error (AppError.upload (strB "纳米")
          (strB "完成上传失败 (HTTP " ++ decDigits st ++ strB "): " ++ body)) := rfl

/-- C6 (amended): uploading the same byte content under file names with the
same (case-insensitive) extension produces the same object key — the key is
`web/{sha1-hex}.{ext}`, a deterministic function of the content hash and
the extension — and whenever the CDN HEAD probe finds the computed key,
the upload short-circuits to `Completed` with `instant = true` and
`url = {cdn_base}/{key}`, issuing no signed write calls: the trace is the
single HEAD probe, with no STS, init, upload-part or complete request. -/
theorem C6_idempotent_object_key (env : NamiEnv) (buffer f₁ f₂ key : RStr)
    (hext : extOf f₁ = extOf f₂)
    (hkey : nami_file_key buffer f₁ = some key)
    (hex : check_file_exists env.headTransport key = true) :
    nami_file_key buffer f₂ = some key ∧
    upload_to_nami env buffer f₁ =
      (.ok ⟨namiUrlOf key, buffer.length, true⟩, [.headProbe (namiUrlOf key)]) ∧
    upload_to_nami env buffer f₂ =
      (.ok ⟨namiUrlOf key, buffer.length, true⟩, [.headProbe (namiUrlOf key)]) := by
  have hk₂ : nami_file_key buffer f₂ = some key := by
    rw [nami_file_key, ← hext, ← nami_file_key]
    exact hkey
  have main : ∀ f, nami_file_key buffer f = some key →
      upload_to_nami env buffer f =
        (.ok ⟨namiUrlOf key, buffer.length, true⟩, [.headProbe (namiUrlOf key)]) := by
    intro f hkf
    rcases hopt : extOf f with _ | ext
    · rw [nami_file_key, hopt] at hkf
      simp at hkf
    · have hkey' : namiKeyFromExt buffer ext = key := by
        rw [nami_file_key, hopt] at hkf
        simpa using hkf
      simp only [upload_to_nami, hopt]
      rw [hkey', hex]
      simp
  exact ⟨hk₂, main f₁ hkey, main f₂ hk₂⟩

/-- C6 witness: a fresh content byte under two names with the same
extension, with a probe that hits. -/
theorem C6_idempotent_object_key_witness :
    extOf (strB "a.png") = extOf (strB "b.png") ∧
    nami_file_key (strB "x") (strB "a.png") =
      some (strB "web/11f6ad8ec52a2984abaafd7c3b516503785c2072.png") ∧
    check_file_exists envHit.headTransport
      (strB "web/11f6ad8ec52a2984abaafd7c3b516503785c2072.png") = true ∧
    nami_file_key (strB "x") (strB "b.png") =
      some (strB "web/11f6ad8ec52a2984abaafd7c3b516503785c2072.png") ∧
    upload_to_nami envHit (strB "x") (strB "a.png") =
      (.ok ⟨namiUrlOf (strB "web/11f6ad8ec52a2984abaafd7c3b516503785c2072.png"),
            (strB "x").length, true⟩,
       [.headProbe (namiUrlOf (strB "web/11f6ad8ec52a2984abaafd7c3b516503785c2072.png"))]) ∧
    upload_to_nami envHit (strB "x") (strB "b.png") =
      (.ok ⟨namiUrlOf (strB "web/11f6ad8ec52a2984abaafd7c3b516503785c2072.png"),
            (strB "x").length, true⟩,
       [.headProbe (namiUrlOf (strB "web/11f6ad8ec52a2984abaafd7c3b516503785c2072.png"))]) := by
  have h := C6_idempotent_object_key envHit (strB "x") (strB "a.png") (strB "b.png")
    (strB "web/11f6ad8ec52a2984abaafd7c3b516503785c2072.png")
    (by decide) (by decide) (by decide)
  exact ⟨by decide, by decide, by decide, h.1, h.2.1, h.2.2⟩

/-- C6 counterexample: the same byte content under the file names `a.png`
and `a.jpg` yields different object keys — the computed key embeds the
file-name extension, not only the content hash, so arbitrary renaming can
change the key. -/
theorem C6_counterexample :
    nami_file_key (strB "x") (strB "a.png") ≠ nami_file_key (strB "x") (strB "a.jpg") := by
  decide

/-- C7 (amended): in `upload_to_nami` any signed call — init, upload-part
or complete — that returns a non-2xx HTTP status is a terminal failure for
that upload attempt: the operation returns an `Upload`-kind ("纳米") error
immediately, the failing call appears exactly once in the trace and nothing
is issued after it; in particular an init HTTP 403 fails immediately with
an `Upload`-kind error (not an `Auth`-kind one) and no retry is
attempted. -/
theorem C7_non2xx_is_terminal :
    (∀ (env : NamiEnv) (buffer f ext : RStr) (st : Nat) (body : InitBody)
        (creds : STSCredentials),
      extOf f = some ext →
      check_file_exists env.headTransport (namiKeyFromExt buffer ext) = false →
      env.dynamicHeaders = .ok () →
      get_sts_credentials env.stsOutcome = .ok creds →
      env.initOutcome = .resp st body →
      statusIsSuccess st = false →
      upload_to_nami env buffer f =
        (.error (AppError.upload (strB "纳米")
          (strB "初始化上传失败 (HTTP " ++ decDigits st ++ strB "): " ++ body.text)),
         [.headProbe (namiUrlOf (namiKeyFromExt buffer ext)), .fetchDynamicHeaders,
          .stsRequest, .initRequest])) ∧
    (∀ (env : NamiEnv) (buffer f ext uid : RStr) (st : Nat) (body : PartBody)
        (creds : STSCredentials),
      extOf f = some ext →
      check_file_exists env.headTransport (namiKeyFromExt buffer ext) = false →
      env.dynamicHeaders = .ok () →
      get_sts_credentials env.stsOutcome = .ok creds →
      init_multipart_upload creds env.initNow (namiKeyFromExt buffer ext) env.initOutcome =
        .ok uid →
      env.partOutcome = .resp st body →
      statusIsSuccess st = false →
      upload_to_nami env buffer f =
        (.error (AppError.upload (strB "纳米")
          (strB "上传分片失败 (HTTP " ++ decDigits st ++ strB "): " ++ body.text)),
         [.headProbe (namiUrlOf (namiKeyFromExt buffer ext)), .fetchDynamicHeaders,
          .stsRequest, .initRequest, .partRequest 1])) ∧
    (∀ (env : NamiEnv) (buffer f ext uid etag : RStr) (st : Nat) (body : RStr)
        (creds : STSCredentials),
      extOf f = some ext →
      check_file_exists env.headTransport (namiKeyFromExt buffer ext) = false →
      env.dynamicHeaders = .ok () →
      get_sts_credentials env.stsOutcome = .ok creds →
      init_multipart_upload creds env.initNow (namiKeyFromExt buffer ext) env.initOutcome =
        .ok uid →
      upload_part creds env.partNow (namiKeyFromExt buffer ext) uid 1 env.partOutcome =
        .ok etag →
      env.completeOutcome = .resp st body →
      statusIsSuccess st = false →
      upload_to_nami env buffer f =
        (.error (AppError.upload (strB "纳米")
          (strB "完成上传失败 (HTTP " ++ decDigits st ++ strB "): " ++ body)),
         [.headProbe (namiUrlOf (namiKeyFromExt buffer ext)), .fetchDynamicHeaders,
          .stsRequest, .initRequest, .partRequest 1, .completeRequest])) := by
  refine ⟨?_, ?_, ?_⟩
  · intro env buffer f ext st body creds hext hprobe hdyn hsts hinit hfail
    simp [upload_to_nami, hext, hprobe, hdyn, hsts, hinit,
      init_multipart_upload_resp, hfail]
  · intro env buffer f ext uid st body creds hext hprobe hdyn hsts hinit hpart hfail
    simp [upload_to_nami, hext, hprobe, hdyn, hsts, hinit, hpart,
      upload_part_resp, hfail]
  · intro env buffer f ext uid etag st body creds hext hprobe hdyn hsts hinit hpart
      hcomp hfail
    simp [upload_to_nami, hext, hprobe, hdyn, hsts, hinit, hpart, hcomp,
      complete_multipart_upload_resp, hfail]

/-- C7 witness: the three terminal failures at concrete environments (init
403, part 500, complete 503). -/
theorem C7_non2xx_is_terminal_witness :
    statusIsSuccess 403 = false ∧
    upload_to_nami envInit403 (strB "x") (strB "a.png") =
      (.error (AppError.upload (strB "纳米")
        (strB "初始化上传失败 (HTTP " ++ decDigits 403 ++ strB "): " ++
          (InitBody.mk [] none).text)),
       [.headProbe (namiUrlOf (namiKeyFromExt (strB "x") (strB "png"))), .fetchDynamicHeaders,
        .stsRequest, .initRequest]) ∧
    upload_to_nami envPart500 (strB "x") (strB "a.png") =
      (.error (AppError.upload (strB "纳米")
        (strB "上传分片失败 (HTTP " ++ decDigits 500 ++ strB "): " ++
          (PartBody.mk [] none).text)),
       [.headProbe (namiUrlOf (namiKeyFromExt (strB "x") (strB "png"))), .fetchDynamicHeaders,
        .stsRequest, .initRequest, .partRequest 1]) ∧
    upload_to_nami envComplete503 (strB "x") (strB "a.png") =
      (.error (AppError.upload (strB "纳米")
        (strB "完成上传失败 (HTTP " ++ decDigits 503 ++ strB "): " ++ ([] : RStr))),
       [.headProbe (namiUrlOf (namiKeyFromExt (strB "x") (strB "png"))), .fetchDynamicHeaders,
        .stsRequest, .initRequest, .partRequest 1, .completeRequest]) :=
  ⟨rfl,
   C7_non2xx_is_terminal.1 envInit403 (strB "x") (strB "a.png") (strB "png") 403 ⟨[], none⟩
     ⟨strB "AK", strB "SK", strB "TOK"⟩ rfl rfl rfl rfl rfl rfl,
   C7_non2xx_is_terminal.2.1 envPart500 (strB "x") (strB "a.png") (strB "png") (strB "UID")
     500 ⟨[], none⟩ ⟨strB "AK", strB "SK", strB "TOK"⟩ rfl rfl rfl rfl rfl rfl rfl,
   C7_non2xx_is_terminal.2.2 envComplete503 (strB "x") (strB "a.png") (strB "png")
     (strB "UID") (strB "ETAG") 503 [] ⟨strB "AK", strB "SK", strB "TOK"⟩ rfl rfl rfl rfl
     rfl rfl rfl rfl⟩

/-- C7 counterexample: when the init call returns HTTP 403 the operation
fails immediately, but with an `Upload`-kind error, not the `Auth`-kind
error the claim states; the trace confirms no retry. -/
theorem C7_counterexample :
    (upload_to_nami envInit403 (strB "x") (strB "a.png")).1 =
      .error (AppError.Upload (strB "纳米") none (strB "初始化上传失败 (HTTP 403): ")) ∧
    AppError.isAuth
      (AppError.Upload (strB "纳米") none (strB "初始化上传失败 (HTTP 403): ")) = false ∧
    (upload_to_nami envInit403 (strB "x") (strB "a.png")).2 =
      [.headProbe (namiUrlOf (strB "web/11f6ad8ec52a2984abaafd7c3b516503785c2072.png")),
       .fetchDynamicHeaders, .stsRequest, .initRequest] :=
  ⟨rfl, rfl, rfl⟩

/-- C10: the existence probe is total (it returns a `Bool`, surfacing no
error): it is `true` exactly when the HEAD of `{cdn_base}/{file_key}`,
issued with its 5-second timeout, yields a 2xx status, and `false` on any
non-2xx status or network error/timeout; and a `false` probe never aborts
the upload — the operation silently continues into the full signed
sequence (the trace continues with the dynamic-header fetch). -/
theorem C10_probe_total_never_aborts (t : HeadTransport) (k : RStr) (env : NamiEnv)
    (buffer f ext : RStr)
    (hext : extOf f = some ext)
    (hprobe : check_file_exists env.headTransport (namiKeyFromExt buffer ext) = false) :
    (check_file_exists t k = true ↔
      (∃ s, t (namiUrlOf k) 5 = .resp s () ∧ statusIsSuccess s = true)) ∧
    (upload_to_nami env buffer f).2.take 2 =
      [.headProbe (namiUrlOf (namiKeyFromExt buffer ext)), .fetchDynamicHeaders] := by
  constructor
  · unfold check_file_exists
    cases h : t (namiUrlOf k) 5 with
    | netErr m => simp [h]
    | resp s b =>
      cases b
      simp [h]
  · simp only [upload_to_nami, hext, hprobe]
    rcases h1 : env.dynamicHeaders with e | u
    · simp [h1]
    · rcases h2 : get_sts_credentials env.stsOutcome with e | creds
      · simp [h1, h2]
      · rcases h3 : init_multipart_upload creds env.initNow (namiKeyFromExt buffer ext)
            env.initOutcome with e | uid
        · simp [h1, h2, h3]
        · rcases h4 : upload_part creds env.partNow (namiKeyFromExt buffer ext) uid 1
              env.partOutcome with e | etag
          · simp [h1, h2, h3, h4]
          · rcases h5 : complete_multipart_upload creds env.completeNow
                (namiKeyFromExt buffer ext) uid [(1, etag)] env.completeOutcome with e | u2 <;>
              simp [h1, h2, h3, h4, h5]

/-- C10 witness: a 404 probe is `false`, and the upload at a missing object
enters the signed sequence. -/
theorem C10_probe_total_never_aborts_witness :
    ((check_file_exists (fun _ _ => .resp 404 ()) (strB "k") = true ↔
      (∃ s, (fun (_ : RStr) (_ : Nat) => HttpOutcome.resp 404 ()) (namiUrlOf (strB "k")) 5 =
          .resp s () ∧ statusIsSuccess s = true)) ∧
    (upload_to_nami envInit403 (strB "x") (strB "a.png")).2.take 2 =
      [.headProbe (namiUrlOf (namiKeyFromExt (strB "x") (strB "png"))),
       .fetchDynamicHeaders]) :=
  C10_probe_total_never_aborts (fun _ _ => .resp 404 ()) (strB "k") envInit403 (strB "x")
    (strB "a.png") (strB "png") rfl rfl

theorem clientError_not_success (st : Nat) (h : statusIsClientError st = true) :
    statusIsSuccess st = false := by
  simp only [statusIsClientError, Bool.and_eq_true, Nat.ble_eq] at h
  rw [Bool.eq_false_iff]
  intro hs
  simp only [statusIsSuccess, Bool.and_eq_true, Nat.ble_eq] at hs
  omega

theorem test_s3_go_attempts_le (resp : Nat → S3Attempt) (attempt remaining : Nat) :
    (test_s3_connection_go resp attempt remaining).attempts ≤ remaining := by
  induction remaining generalizing attempt with
  | zero => simp [test_s3_connection_go]
  | succ r ih =>
    simp only [test_s3_connection_go]
    rcases h : resp attempt with _ | m | c <;> simp only [h]
    · split_ifs with hb
      · have := ih (attempt + 1)
        simp only [RetryRun.attempts]
        omega
      · simp
    · split_ifs with h1 h2 h3 h4 h5
      · simp
      · simp
      · simp
      · simp
      · have := ih (attempt + 1)
        simp only [RetryRun.attempts]
        omega
      · simp
    · simp

theorem test_s3_go_attempts_pos (resp : Nat → S3Attempt) (attempt r : Nat) :
    1 ≤ (test_s3_connection_go resp attempt (r + 1)).attempts := by
  simp only [test_s3_connection_go]
  rcases h : resp attempt with _ | m | c <;> simp only [h]
  · split_ifs <;> simp
  · split_ifs <;> simp
  · simp

/-- The delays of the `test_s3_connection` loop are exactly the exponential
schedule `100ms · 2^i`, one entry per retry performed. -/
theorem test_s3_go_delays_eq (resp : Nat → S3Attempt) :
    ∀ remaining attempt, 1 ≤ attempt → attempt + remaining = 4 →
    (test_s3_connection_go resp attempt remaining).delays =
      (List.range ((test_s3_connection_go resp attempt remaining).attempts - 1)).map
        (fun i => 100 * 2 ^ (attempt - 1 + i)) := by
  intro remaining
  induction remaining with
  | zero =>
    intro attempt _ _
    simp [test_s3_connection_go]
  | succ r ih =>
    intro attempt ha hinv
    have main : ∀ rest : RetryRun RStr AppError,
        rest = test_s3_connection_go resp (attempt + 1) r →
        Nat.blt attempt 3 = true →
        (100 * 2 ^ (attempt - 1) :: rest.delays) =
          (List.range (rest.attempts + 1 - 1)).map (fun i => 100 * 2 ^ (attempt - 1 + i)) := by
      intro rest hrest hb
      have hlt : attempt < 3 := by simpa [Nat.blt_eq] using hb
      have hr1 : 1 ≤ r := by omega
      obtain ⟨r', hr'⟩ : ∃ r', r = r' + 1 := ⟨r - 1, by omega⟩
      have hpos : 1 ≤ rest.attempts := by
        rw [hrest, hr']
        exact test_s3_go_attempts_pos resp (attempt + 1) r'
      have hrec : rest.delays =
          (List.range (rest.attempts - 1)).map (fun i => 100 * 2 ^ (attempt + i)) := by
        rw [hrest]
        have := ih (attempt + 1) (by omega) (by omega)
        simpa using this
      obtain ⟨k, hk⟩ : ∃ k, rest.attempts = k + 1 := ⟨rest.attempts - 1, by omega⟩
      rw [hrec, hk]
      simp only [Nat.add_sub_cancel, List.range_succ_eq_map, List.map_cons, List.map_map]
      congr 1
      apply List.map_congr_left
      intro i _
      simp only [Function.comp_apply]
      have hxy : attempt + i = attempt - 1 + Nat.succ i := by omega
      rw [hxy]
    simp only [test_s3_connection_go]
    rcases h : resp attempt with _ | m | c <;> simp only [h]
    · split_ifs with hb
      · exact main _ rfl hb
      · simp
    · split_ifs with h1 h2 h3 h4 h5
      · simp
      · simp
      · simp
      · simp
      · have h5' : is_retriable_error m = true ∧ Nat.blt attempt 3 = true := by simpa using h5
        exact main _ rfl h5'.2
      · simp
    · simp

theorem delete_go_attempts_le (resp : Nat → DeleteAttempt) :
    ∀ remaining attempt le0,
      (delete_r2_object_go resp le0 attempt remaining).attempts ≤ remaining := by
  intro remaining
  induction remaining with
  | zero => intro attempt le0; simp [delete_r2_object_go]
  | succ r ih =>
    intro attempt le0
    simp only [delete_r2_object_go]
    rcases h : resp attempt with ⟨b, m⟩ | ⟨st, body⟩ <;> simp only [h] <;>
      first
      | exact Nat.succ_le_succ (ih _ _)
      | (split_ifs <;>
          first
          | exact Nat.succ_le_succ (Nat.zero_le r)
          | exact Nat.succ_le_succ (ih _ _))

/-- The delays of the `delete_r2_object` loop starting at a positive
attempt index are exactly `500ms · 2^(a+i)`, one per iteration entered. -/
theorem delete_go_delays_eq (resp : Nat → DeleteAttempt) :
    ∀ remaining attempt le0, 0 < attempt →
    (delete_r2_object_go resp le0 attempt remaining).delays =
      (List.range (delete_r2_object_go resp le0 attempt remaining).attempts).map
        (fun i => 500 * 2 ^ (attempt + i)) := by
  intro remaining
  induction remaining with
  | zero => intro attempt le0 _; simp [delete_r2_object_go]
  | succ r ih =>
    intro attempt le0 ha
    have main : ∀ (rest : RetryRun RStr RStr) (le1 : RStr),
        rest = delete_r2_object_go resp le1 (attempt + 1) r →
        ([500 * 2 ^ attempt] ++ rest.delays) =
          (List.range (rest.attempts + 1)).map (fun i => 500 * 2 ^ (attempt + i)) := by
      intro rest le1 hrest
      have hrec : rest.delays =
          (List.range rest.attempts).map (fun i => 500 * 2 ^ (attempt + 1 + i)) := by
        rw [hrest]
        exact ih (attempt + 1) le1 (by omega)
      rw [hrec]
      simp only [List.range_succ_eq_map, List.map_cons, List.map_map, List.singleton_append]
      congr 1
      apply List.map_congr_left
      intro i _
      simp only [Function.comp_apply]
      have hxy : attempt + 1 + i = attempt + Nat.succ i := by omega
      rw [hxy]
    simp only [delete_r2_object_go, if_pos ha]
    rcases h : resp attempt with ⟨b, m⟩ | ⟨st, body⟩ <;> simp only [h]
    · exact main _ _ rfl
    · split_ifs with h1 h2
      · simp [List.range_succ]
      · simp [List.range_succ]
      · exact main _ _ rfl

/-- The whole `delete_r2_object` run sleeps exactly `1000ms, 2000ms, …`,
one entry per retry performed. -/
theorem delete_run_delays (resp : Nat → DeleteAttempt) :
    (delete_r2_object_run resp).delays =
      (List.range ((delete_r2_object_run resp).attempts - 1)).map
        (fun i => 500 * 2 ^ (1 + i)) := by
  unfold delete_r2_object_run
  rw [delete_r2_object_go]
  simp only [show (0 < 0) = False by simp, if_false]
  rcases h : resp 0 with ⟨b, m⟩ | ⟨st, body⟩ <;> simp only [h]
  · simpa using delete_go_delays_eq resp 2 1 (strB "请求失败: " ++ m) (by omega)
  · split_ifs with h1 h2
    · simp
    · simp
    · simpa using delete_go_delays_eq resp 2 1
        (strB "删除对象失败 (HTTP " ++ decDigits st ++ strB "): " ++ body) (by omega)

/-- The whole `test_s3_connection` run sleeps exactly `100ms, 200ms, …`,
one entry per retry performed. -/
theorem test_s3_run_delays (resp : Nat → S3Attempt) :
    (test_s3_connection resp).delays =
      (List.range ((test_s3_connection resp).attempts - 1)).map (fun i => 100 * 2 ^ i) := by
  have := test_s3_go_delays_eq resp 3 1 (by omega) (by omega)
  unfold test_s3_connection
  simpa using this

/-- Whatever attempt index and fuel the loop reaches, an auth-classified
SDK error terminates `test_s3_connection` right there: the call makes
exactly one further attempt and returns the `Auth` error. -/
theorem s3_go_auth_step (resp : Nat → S3Attempt) (a r : Nat) (m : RStr)
    (hresp : resp a = .sdkErr m)
    (hnb : containsSub m (strB "NoSuchBucket") = false)
    (hauth : (containsSub m (strB "AccessDenied") || containsSub m (strB "InvalidAccessKeyId") ||
      containsSub m (strB "SignatureDoesNotMatch")) = true) :
    exceptIsAuthErr (test_s3_connection_go resp a (r + 1)).result = true ∧
    (test_s3_connection_go resp a (r + 1)).attempts = 1 := by
  rw [test_s3_connection_go]
  simp only [hresp]
  by_cases h2 : (containsSub m (strB "AccessDenied") ||
      containsSub m (strB "InvalidAccessKeyId")) = true
  · simp only [Bool.or_eq_true] at h2
    rcases h2 with ha | hb
    · simp [hnb, ha, exceptIsAuthErr, AppError.isAuth]
    · simp [hnb, hb, exceptIsAuthErr, AppError.isAuth]
  · simp only [Bool.or_eq_true, not_or, Bool.not_eq_true] at h2
    simp only [Bool.or_eq_true] at hauth
    rcases hauth with (ha | hb) | hc
    · rw [h2.1] at ha; exact absurd ha (by simp)
    · rw [h2.2] at hb; exact absurd hb (by simp)
    · simp [hnb, h2.1, h2.2, hc, exceptIsAuthErr, AppError.isAuth]

/-- A retry-classified attempt outcome makes `test_s3_connection` move on
to the next attempt, adding one to the attempt count. -/
theorem s3_go_skip (resp : Nat → S3Attempt) (a r : Nat)
    (hret : s3AttemptRetries (resp a) = true) (hlt : Nat.blt a 3 = true) :
    (test_s3_connection_go resp a (r + 1)).result =
      (test_s3_connection_go resp (a + 1) r).result ∧
    (test_s3_connection_go resp a (r + 1)).attempts =
      (test_s3_connection_go resp (a + 1) r).attempts + 1 := by
  rw [test_s3_connection_go]
  rcases h : resp a with _ | m | c
  · simp [h, hlt]
  · rw [h] at hret
    simp only [s3AttemptRetries, Bool.and_eq_true, Bool.not_eq_true'] at hret
    obtain ⟨⟨⟨⟨⟨hnb, had⟩, hik⟩, hsm⟩, hib⟩, hretr⟩ := hret
    simp [h, hnb, had, hik, hsm, hib, hretr, hlt]
  · rw [h] at hret
    simp [s3AttemptRetries] at hret

/-- An auth-classified SDK error arriving at any attempt `j` of
`test_s3_connection` — also after `j - 1` retried network failures — is
never retried: the run stops at attempt `j` with an `Auth` error, having
slept only the `j - 1` backoff delays of the earlier retries. -/
theorem s3_auth_never_retried (resp : Nat → S3Attempt) (j : Nat) (m : RStr)
    (hj1 : 1 ≤ j) (hj3 : j ≤ 3)
    (hpre : ∀ i, 1 ≤ i → i < j → s3AttemptRetries (resp i) = true)
    (hresp : resp j = .sdkErr m)
    (hnb : containsSub m (strB "NoSuchBucket") = false)
    (hauth : (containsSub m (strB "AccessDenied") || containsSub m (strB "InvalidAccessKeyId") ||
      containsSub m (strB "SignatureDoesNotMatch")) = true) :
    exceptIsAuthErr (test_s3_connection resp).result = true ∧
    (test_s3_connection resp).attempts = j := by
  unfold test_s3_connection
  interval_cases j
  · exact s3_go_auth_step resp 1 2 m hresp hnb hauth
  · have hs := s3_go_skip resp 1 2 (hpre 1 (by omega) (by omega)) rfl
    have ha := s3_go_auth_step resp 2 1 m hresp hnb hauth
    refine ⟨?_, ?_⟩
    · rw [hs.1]; exact ha.1
    · rw [hs.2, ha.2]
  · have hs1 := s3_go_skip resp 1 2 (hpre 1 (by omega) (by omega)) rfl
    have hs2 := s3_go_skip resp 2 1 (hpre 2 (by omega) (by omega)) rfl
    have ha := s3_go_auth_step resp 3 0 m hresp hnb hauth
    refine ⟨?_, ?_⟩
    · rw [hs1.1, hs2.1]; exact ha.1
    · rw [hs1.2, hs2.2, ha.2]

/-- Whatever attempt index and fuel the loop reaches, a 4xx response
terminates `delete_r2_object` right there, after exactly one further
attempt. -/
theorem delete_go_client_step (resp : Nat → DeleteAttempt) (a r : Nat) (le0 : RStr)
    (st : Nat) (body : RStr)
    (hresp : resp a = .resp st body) (hcl : statusIsClientError st = true) :
    (delete_r2_object_go resp le0 a (r + 1)).result =
      .error (strB "删除对象失败 (HTTP " ++ decDigits st ++ strB "): " ++ body) ∧
    (delete_r2_object_go resp le0 a (r + 1)).attempts = 1 := by
  have hns := clientError_not_success st hcl
  rw [delete_r2_object_go]
  simp [hresp, hns, hcl]

/-- A retry-classified attempt outcome makes `delete_r2_object` move on to
the next attempt (with some recorded last error), adding one to the
attempt count. -/
theorem delete_go_skip (resp : Nat → DeleteAttempt) (a r : Nat) (le0 : RStr)
    (hret : deleteAttemptRetries (resp a) = true) :
    ∃ le1, (delete_r2_object_go resp le0 a (r + 1)).result =
        (delete_r2_object_go resp le1 (a + 1) r).result ∧
      (delete_r2_object_go resp le0 a (r + 1)).attempts =
        (delete_r2_object_go resp le1 (a + 1) r).attempts + 1 := by
  rw [delete_r2_object_go]
  rcases h : resp a with ⟨b, m⟩ | ⟨st, body⟩
  · exact ⟨strB "请求失败: " ++ m, by simp [h], by simp [h]⟩
  · rw [h] at hret
    simp only [deleteAttemptRetries, Bool.and_eq_true, Bool.not_eq_true'] at hret
    refine ⟨strB "删除对象失败 (HTTP " ++ decDigits st ++ strB "): " ++ body, ?_, ?_⟩ <;>
      simp [h, hret.1, hret.2]

/-- A 4xx response arriving at any attempt `j` of `delete_r2_object` —
also after `j` retried network failures — is never retried: the run stops
there with the client error, having made `j + 1` attempts. -/
theorem delete_client_never_retried (resp : Nat → DeleteAttempt) (j st : Nat) (body : RStr)
    (hj : j ≤ 2)
    (hpre : ∀ i, i < j → deleteAttemptRetries (resp i) = true)
    (hresp : resp j = .resp st body)
    (hcl : statusIsClientError st = true) :
    (delete_r2_object_run resp).result =
      .error (strB "删除对象失败 (HTTP " ++ decDigits st ++ strB "): " ++ body) ∧
    (delete_r2_object_run resp).attempts = j + 1 := by
  unfold delete_r2_object_run
  interval_cases j
  · exact delete_go_client_step resp 0 2 [] st body hresp hcl
  · obtain ⟨le1, hr, hatt⟩ := delete_go_skip resp 0 2 [] (hpre 0 (by omega))
    have hc := delete_go_client_step resp 1 1 le1 st body hresp hcl
    exact ⟨hr.trans hc.1, by rw [hatt, hc.2]⟩
  · obtain ⟨le1, hr1, hatt1⟩ := delete_go_skip resp 0 2 [] (hpre 0 (by omega))
    obtain ⟨le2, hr2, hatt2⟩ := delete_go_skip resp 1 1 le1 (hpre 1 (by omega))
    have hc := delete_go_client_step resp 2 0 le2 st body hresp hcl
    exact ⟨(hr1.trans hr2).trans hc.1, by rw [hatt1, hatt2, hc.2]⟩

/-- C8: in the store-connectivity test and the delete operation,
network-level failures (timeout, connection failure) are retried at most 3
attempts, with exponential-backoff delays between attempts (100ms·2^i for
the S3 test, 500ms·2^(1+i) for the R2 delete), while auth and
signature-mismatch errors (`AccessDenied`, `InvalidAccessKeyId`,
`SignatureDoesNotMatch` — and for the delete, any 4xx status) are never
retried: whichever attempt they first arrive on, including after earlier
retried network failures, the operation fails right there, with no further
attempts and only the backoff sleeps of the preceding retries. -/
theorem C8_retry_policy :
    (∀ resp, (test_s3_connection resp).attempts ≤ 3) ∧
    (∀ resp, (test_s3_connection resp).delays =
      (List.range ((test_s3_connection resp).attempts - 1)).map (fun i => 100 * 2 ^ i)) ∧
    (∀ resp, (delete_r2_object_run resp).attempts ≤ 3) ∧
    (∀ resp, (delete_r2_object_run resp).delays =
      (List.range ((delete_r2_object_run resp).attempts - 1)).map
        (fun i => 500 * 2 ^ (1 + i))) ∧
    (∀ resp j m, 1 ≤ j → j ≤ 3 →
      (∀ i, 1 ≤ i → i < j → s3AttemptRetries (resp i) = true) →
      resp j = .sdkErr m →
      containsSub m (strB "NoSuchBucket") = false →
      (containsSub m (strB "AccessDenied") || containsSub m (strB "InvalidAccessKeyId") ||
        containsSub m (strB "SignatureDoesNotMatch")) = true →
      exceptIsAuthErr (test_s3_connection resp).result = true ∧
      (test_s3_connection resp).attempts = j ∧
      (test_s3_connection resp).delays =
        (List.range (j - 1)).map (fun i => 100 * 2 ^ i)) ∧
    (∀ resp j st body, j ≤ 2 →
      (∀ i, i < j → deleteAttemptRetries (resp i) = true) →
      resp j = .resp st body → statusIsClientError st = true →
      (delete_r2_object_run resp).result =
        .error (strB "删除对象失败 (HTTP " ++ decDigits st ++ strB "): " ++ body) ∧
      (delete_r2_object_run resp).attempts = j + 1 ∧
      (delete_r2_object_run resp).delays =
        (List.range j).map (fun i => 500 * 2 ^ (1 + i))) := by
  refine ⟨?_, ?_, ?_, ?_, ?_, ?_⟩
  · intro resp
    exact test_s3_go_attempts_le resp 1 3
  · intro resp
    exact test_s3_run_delays resp
  · intro resp
    exact delete_go_attempts_le resp 3 0 []
  · intro resp
    exact delete_run_delays resp
  · intro resp j m hj1 hj3 hpre hresp hnb hauth
    have h := s3_auth_never_retried resp j m hj1 hj3 hpre hresp hnb hauth
    refine ⟨h.1, h.2, ?_⟩
    rw [test_s3_run_delays resp, h.2]
  · intro resp j st body hj hpre hresp hcl
    have h := delete_client_never_retried resp j st body hj hpre hresp hcl
    refine ⟨h.1, h.2, ?_⟩
    rw [delete_run_delays resp, h.2]
    simp

/-- C8 witness: repeated timeouts and network errors retry within the
budget; `AccessDenied` arriving on attempt 2 after a retried timeout, and
an HTTP 403 arriving on attempt 1 after a retried network error, both stop
the runs immediately with only the earlier backoff sleeps. -/
theorem C8_retry_policy_witness :
    (test_s3_connection (fun _ => .timeoutElapsed)).attempts ≤ 3 ∧
    (test_s3_connection (fun _ => .timeoutElapsed)).delays =
      (List.range ((test_s3_connection (fun _ => .timeoutElapsed)).attempts - 1)).map
        (fun i => 100 * 2 ^ i) ∧
    (delete_r2_object_run (fun _ => .netErr true (strB "t"))).attempts ≤ 3 ∧
    (delete_r2_object_run (fun _ => .netErr true (strB "t"))).delays =
      (List.range ((delete_r2_object_run (fun _ => .netErr true (strB "t"))).attempts - 1)).map
        (fun i => 500 * 2 ^ (1 + i)) ∧
    (exceptIsAuthErr (test_s3_connection s3TimeoutThenAuth).result = true ∧
      (test_s3_connection s3TimeoutThenAuth).attempts = 2 ∧
      (test_s3_connection s3TimeoutThenAuth).delays =
        (List.range (2 - 1)).map (fun i => 100 * 2 ^ i)) ∧
    ((delete_r2_object_run delNetErrThen403).result =
        .error (strB "删除对象失败 (HTTP " ++ decDigits 403 ++ strB "): " ++ strB "denied") ∧
      (delete_r2_object_run delNetErrThen403).attempts = 1 + 1 ∧
      (delete_r2_object_run delNetErrThen403).delays =
        (List.range 1).map (fun i => 500 * 2 ^ (1 + i))) :=
  ⟨C8_retry_policy.1 _, C8_retry_policy.2.1 _, C8_retry_policy.2.2.1 _,
   C8_retry_policy.2.2.2.1 _,
   C8_retry_policy.2.2.2.2.1 s3TimeoutThenAuth 2 (strB "AccessDenied") (by decide) (by decide)
     (fun i h1 h2 => by
       have hi : i = 1 := by omega
       rw [hi]; decide)
     (by decide) (by decide) (by decide),
   C8_retry_policy.2.2.2.2.2 delNetErrThen403 1 403 (strB "denied") (by decide)
     (fun i h1 => by
       have hi : i = 0 := by omega
       rw [hi]; decide)
     (by decide) (by decide)⟩

/-- C9 (amended): response classification maps distinct failure shapes to
distinct kinds: an HTML document where JSON was expected yields an
`Auth`-kind error (and an unparseable non-HTML body also maps to `Auth`,
not a generic parse error); a well-formed JSON error payload with a
provider error code yields a provider-error (`Upload`-kind) result — the
`upload_with_code` constructor used by the Bilibili/Nowcoder paths carries
the numeric code, while the Nami STS path preserves the provider message
but drops the numeric code (its `code` field is `None`). -/
theorem C9_error_classification :
    (∀ text parsed,
      (containsSub text (strB "<!DOCTYPE html>") || containsSub text (strB "<html")) = true →
      chaoxing_classify text parsed =
        .error (.Auth (strB "Cookie 已过期或无效，请重新登录"))) ∧
    (∀ text,
      (containsSub text (strB "<!DOCTYPE html>") || containsSub text (strB "<html")) = false →
      chaoxing_classify text none =
        .error (.Auth (strB "Cookie 无效或已过期（无法解析响应）"))) ∧
    (∀ (st : Nat) (body : StsBody) (sts : STSResponse),
      statusIsSuccess st = true → body.parsed = some sts → sts.code ≠ 0 →
      get_sts_credentials (.resp st body) =
        .error (.Upload (strB "纳米") none (strB "STS 返回错误: " ++ sts.msg.getD []))) ∧
    (∀ (service : RStr) (code : Int) (message : RStr),
      AppError.upload_with_code service code message = .Upload service (some code) message) := by
  refine ⟨?_, ?_, ?_, fun _ _ _ => rfl⟩
  · intro text parsed h
    simp only [chaoxing_classify, h]
    rfl
  · intro text h
    simp only [chaoxing_classify, h]
    rfl
  · intro st body sts hst hp hc
    simp only [get_sts_credentials, hst, hp]
    simp [hc, AppError.upload]

/-- C9 witness: an HTML body and a parse failure classify as `Auth`; an STS
payload with code 5 and message `bad` yields the `Upload` provider error
with the message preserved; `upload_with_code` carries its code. -/
theorem C9_error_classification_witness :
    ((containsSub (strB "<html><body>login</body></html>") (strB "<!DOCTYPE html>") ||
        containsSub (strB "<html><body>login</body></html>") (strB "<html")) = true ∧
      chaoxing_classify (strB "<html><body>login</body></html>") none =
        .error (.Auth (strB "Cookie 已过期或无效，请重新登录"))) ∧
    ((containsSub (strB "not json") (strB "<!DOCTYPE html>") ||
        containsSub (strB "not json") (strB "<html")) = false ∧
      chaoxing_classify (strB "not json") none =
        .error (.Auth (strB "Cookie 无效或已过期（无法解析响应）"))) ∧
    get_sts_credentials (.resp 200 ⟨strB "body", some ⟨5, none, some (strB "bad")⟩⟩) =
      .error (.Upload (strB "纳米") none
        (strB "STS 返回错误: " ++ (Option.some (strB "bad")).getD [])) ∧
    AppError.upload_with_code (strB "哔哩哔哩") (-101) (strB "账号未登录") =
      .Upload (strB "哔哩哔哩") (some (-101)) (strB "账号未登录") :=
  ⟨⟨by decide, C9_error_classification.1 _ none (by decide)⟩,
   ⟨by decide, C9_error_classification.2.1 _ (by decide)⟩,
   C9_error_classification.2.2.1 200 ⟨strB "body", some ⟨5, none, some (strB "bad")⟩⟩
     ⟨5, none, some (strB "bad")⟩ (by decide) rfl (by decide),
   C9_error_classification.2.2.2 _ _ _⟩

/-- C9 counterexample: a well-formed JSON STS error payload carrying the
provider code 123 yields an `Upload` error whose `code` field is `None` and
whose message does not contain the digits `123` — the provider code is
dropped, not preserved as the claim states. -/
theorem C9_counterexample :
    get_sts_credentials (.resp 200 ⟨strB "body", some ⟨123, none, some (strB "x")⟩⟩) =
      .error (AppError.Upload (strB "纳米") none (strB "STS 返回错误: x")) ∧
    AppError.uploadCode (AppError.Upload (strB "纳米") none (strB "STS 返回错误: x")) = none ∧
    containsSub (strB "STS 返回错误: x") (strB "123") = false :=
  ⟨rfl, rfl, by decide⟩

/-! ## Hash test vectors (sanity anchors for the executable embedding) -/

example : hexEncode (sha256 (strB "abc")) =
    strB "ba7816bf8f01cfea414140de5dae2223b00361a396177a9cb410ff61f20015ad" := by decide

example : hexEncode (sha1 (strB "abc")) =
    strB "a9993e364706816aba3e25717850c26c9cd0d89d" := by decide

example : hexEncode (hmacSha256Bytes (List.replicate 20 11) (strB "Hi There")) =
    strB "b0344c61d8db38535ca8afceaf0bf12b881dc200c9833da726e9376c2e32cff7" := by decide
